import Mathlib

/-!
AX93304 LCD driver (server/drivers/ax93304.c)

A shallow embedding of the driver's drawing operations.  The driver's private data is a
record; every operation is a function from the record before the call to the record after it.
Two parts of the environment are carried in the same record so that effects can be observed:

* `tx`    : every byte handed to `write(p->fd, ...)`, in order (the serial line);
* `stray` : every store through `p->framebuf` that fell outside the allocated block
            (undefined behaviour in C), as `(index, byte)` in order.

Bytes are natural numbers below 256; a C `char` argument is given by its bit pattern and the
cast `(unsigned char)` is `% 256`.  C `int` coordinates are unbounded integers.
-/

namespace AX93304

/-- Modelled from the spec: the `CGmode` enumeration of `lcd.h` (not under src/); the driver
names `standard`, `vbar`, `hbar` and `bignum`. -/
inductive CGmode where
  | standard
  | vbar
  | hbar
  | bignum
deriving DecidableEq, Repr

/-- The record `PrivateData` (fields `device`, `speed` and `fd` are replaced by the log `tx`
of the bytes written to `fd`; `stray` logs stores outside the `framebuf` block). -/
structure PrivateData where
  width : Int
  height : Int
  cellwidth : Int
  cellheight : Int
  framebuf : List Nat
  ccmode : CGmode
  tx : List Nat
  stray : List (Int × Nat)
deriving DecidableEq, Repr

/-- What the driver takes from outside `ax93304.c`:
`peek a` is the byte a system call can read at the raw address `a` of the process
(`none` when the address is not mapped, in which case `write` fails with `EFAULT` and sends
nothing); `lib_vbar_static` and `lib_hbar_static` are the shared bar primitives of
`lcd_lib.c`, called with `x y len promille options cellsize cc_offset`. -/
structure Env where
  peek : Int → Option Nat
  lib_vbar_static : PrivateData → Int → Int → Int → Int → Int → Int → Int → PrivateData
  lib_hbar_static : PrivateData → Int → Int → Int → Int → Int → Int → Int → PrivateData

/-- Number of custom characters: `#define NUM_CCs 8`. -/
def NUM_CCs : Int := 8

/-- The call `write(p->fd, buf, count)` for a buffer whose `count` bytes are `bs`. -/
def sys_write (p : PrivateData) (bs : List Nat) : PrivateData :=
  { p with tx := p.tx ++ bs }

/-- The call `write(p->fd, a, 1)` where the second argument is the integer `a` itself, taken by
`write` as the address of the buffer: the byte sent is the one stored at address `a`. -/
def sys_write_at (E : Env) (p : PrivateData) (a : Int) : PrivateData :=
  match E.peek a with
  | some b => sys_write p [b]
  | none => p

/-- The assignment `p->framebuf[idx] = c`. -/
def poke (p : PrivateData) (idx : Int) (c : Nat) : PrivateData :=
  if 0 ≤ idx ∧ idx < p.framebuf.length then
    { p with framebuf := p.framebuf.set idx.toNat c }
  else
    { p with stray := p.stray ++ [(idx, c)] }

/-- The call `memset(p->framebuf, c, n)`: stores `c` at indices `0 .. n-1`. -/
def memset_framebuf (p : PrivateData) (c : Nat) (n : Int) : PrivateData :=
  (List.range n.toNat).foldl (fun q (i : Nat) => poke q (i : Int) c) p

/-- The function `ax93304_clear`. -/
def ax93304_clear (p : PrivateData) : PrivateData :=
  let p1 := memset_framebuf p 0x20 (p.width * p.height)
  { p1 with ccmode := CGmode.standard }

/-- The function `ax93304_flush`. -/
def ax93304_flush (p : PrivateData) : PrivateData :=
  let p1 := sys_write p [0xFE, 0x01, 0xFE, 0x02]
  let p2 := sys_write p1 (p1.framebuf.take 16)
  let p3 := sys_write p2 [0xFE, 0xC0]
  sys_write p3 ((p3.framebuf.drop 16).take 16)

/-- The loop of `ax93304_string`; `x` and `y` are already 0-based, `s` is what is left of the
string from position `i` on (the end of the list is the terminating NUL). -/
def ax93304_string_loop (x y : Int) : List Nat → Int → PrivateData → PrivateData
  | [], _, p => p
  | ch :: rest, i, p =>
    if ch % 256 = 0 then p
    else
      let c := ch % 256
      if (y * p.width) + x + i > (p.width * p.height) then p
      else
        let c := if c > 0x7F ∧ c < 0x98 then 0x20 else c
        ax93304_string_loop x y rest (i + 1) (poke p ((y * p.width) + x + i) c)

/-- The function `ax93304_string`: `x--; y--;` and the loop from `i = 0`. -/
def ax93304_string (p : PrivateData) (x y : Int) (string : List Nat) : PrivateData :=
  ax93304_string_loop (x - 1) (y - 1) string 0 p

/-- The function `ax93304_chr`. -/
def ax93304_chr (p : PrivateData) (x y : Int) (c : Nat) : PrivateData :=
  let ch := c % 256
  let y := y - 1
  let x := x - 1
  let ch := if ch > 0x7F ∧ ch < 0x98 then 0x20 else ch
  poke p ((y * p.width) + x) ch

/-- The function `ax93304_set_char`; `dat` is `none` for a null pointer, and a row read past
the end of the array is taken as 0. -/
def ax93304_set_char (E : Env) (p : PrivateData) (n : Int) (dat : Option (List Nat)) :
    PrivateData :=
  let mask := ((1 <<< p.cellwidth.toNat) - 1) % 256
  if n < 0 ∨ n ≥ NUM_CCs then p
  else
    match dat with
    | none => p
    | some d =>
      let p1 := sys_write p [0xFE]
      let p2 := sys_write_at E p1 (0x40 + (n * 8))
      let p3 := (List.range p.cellheight.toNat).foldl
        (fun q (row : Nat) => sys_write q [(d.getD row 0 % 256) &&& mask]) p2
      sys_write p3 [0xFE, 0xFF]

/-- The table `bar_up` of `ax93304_vbar`. -/
def bar_up : List (List Nat) :=
  [[0x00, 0x00, 0x00, 0x00, 0x00, 0x00, 0x00, 0x1F],
   [0x00, 0x00, 0x00, 0x00, 0x00, 0x00, 0x1F, 0x1F],
   [0x00, 0x00, 0x00, 0x00, 0x00, 0x1F, 0x1F, 0x1F],
   [0x00, 0x00, 0x00, 0x00, 0x1F, 0x1F, 0x1F, 0x1F],
   [0x00, 0x00, 0x00, 0x1F, 0x1F, 0x1F, 0x1F, 0x1F],
   [0x00, 0x00, 0x1F, 0x1F, 0x1F, 0x1F, 0x1F, 0x1F],
   [0x00, 0x1F, 0x1F, 0x1F, 0x1F, 0x1F, 0x1F, 0x1F]]

/-- The table `bar_right` of `ax93304_hbar`. -/
def bar_right : List (List Nat) :=
  [[0x10, 0x10, 0x10, 0x10, 0x10, 0x10, 0x10, 0x10],
   [0x18, 0x18, 0x18, 0x18, 0x18, 0x18, 0x18, 0x18],
   [0x1C, 0x1C, 0x1C, 0x1C, 0x1C, 0x1C, 0x1C, 0x1C],
   [0x1E, 0x1E, 0x1E, 0x1E, 0x1E, 0x1E, 0x1E, 0x1E]]

/-- The loop `for (i = 0; i < count; i++) ax93304_set_char(drvthis, i + 1, table[i]);`. -/
def set_bar_chars (E : Env) (table : List (List Nat)) (count : Nat) (p : PrivateData) :
    PrivateData :=
  (List.range count).foldl
    (fun q (i : Nat) => ax93304_set_char E q ((i : Int) + 1) (table.get? i)) p

/-- The function `ax93304_vbar`. -/
def ax93304_vbar (E : Env) (p : PrivateData) (x y len promille options : Int) :
    PrivateData :=
  if p.ccmode ≠ CGmode.vbar then
    if p.ccmode ≠ CGmode.standard then p
    else
      let p1 := { p with ccmode := CGmode.vbar }
      let p2 := set_bar_chars E bar_up 7 p1
      E.lib_vbar_static p2 x y len promille options p2.cellheight 0x01
  else
    E.lib_vbar_static p x y len promille options p.cellheight 0x01

/-- The function `ax93304_hbar`. -/
def ax93304_hbar (E : Env) (p : PrivateData) (x y len promille options : Int) :
    PrivateData :=
  if p.ccmode ≠ CGmode.hbar then
    if p.ccmode ≠ CGmode.standard then p
    else
      let p1 := { p with ccmode := CGmode.hbar }
      let p2 := set_bar_chars E bar_right 4 p1
      E.lib_hbar_static p2 x y len promille options p2.cellwidth 0x01
  else
    E.lib_hbar_static p x y len promille options p.cellwidth 0x01

/-- The private data as `ax93304_init` leaves it on success (lines 87-94 and 156-167):
a 16x2 grid of 5x8 cells, 32 spaces in the frame buffer, mode `standard`, and the four
bytes `FE 01 FE 02` sent. -/
def initial : PrivateData :=
  { width := 16, height := 2, cellwidth := 5, cellheight := 8,
    framebuf := List.replicate 32 0x20, ccmode := CGmode.standard,
    tx := [0xFE, 0x01, 0xFE, 0x02], stray := [] }

/-- The geometry and frame-buffer size that `ax93304_init` establishes and that no operation
changes: 16 columns, 2 rows, 5x8 cells, a block of 32 bytes. -/
def Initialised (p : PrivateData) : Prop :=
  p.width = 16 ∧ p.height = 2 ∧ p.cellwidth = 5 ∧ p.cellheight = 8 ∧ p.framebuf.length = 32

instance (p : PrivateData) : Decidable (Initialised p) := by
  unfold Initialised; infer_instance

/-- An environment in which the low addresses `0x40 .. 0x78` are not mapped (page zero of a
user process) and a bar primitive draws one cap glyph through the driver's own
`ax93304_chr`. -/
def pageZeroEnv : Env :=
  { peek := fun _ => none,
    lib_vbar_static := fun p x y _ promille _ cellheight cc_offset =>
      ax93304_chr p x y (Int.toNat (promille * cellheight / 1000 % cellheight + cc_offset)),
    lib_hbar_static := fun p x y _ promille _ cellwidth cc_offset =>
      ax93304_chr p x y (Int.toNat (promille * cellwidth / 1000 % cellwidth + cc_offset)) }

/-- The bytes sent between two states of the same driver: what `tx` gained. -/
def sent (before after : PrivateData) : List Nat :=
  after.tx.drop before.tx.length

/-- The bytes one call `ax93304_set_char(drvthis, n, d)` hands to the serial line on a driver
with 5x8 cells: `FE`, then whatever byte lies at address `0x40 + n*8` (none when that
address is unmapped), then the 8 masked rows, then `FE FF`. -/
def glyph_sequence (E : Env) (n : Int) (d : List Nat) : List Nat :=
  [0xFE] ++ (E.peek (0x40 + (n * 8))).toList
    ++ (List.range 8).map (fun row => (d.getD row 0 % 256) &&& 0x1F) ++ [0xFE, 0xFF]

/-- The bytes of a run of glyph definitions, one `glyph_sequence` per `(slot, bitmap)`. -/
def glyph_sequences (E : Env) (defs : List (Int × List Nat)) : List Nat :=
  defs.flatMap (fun sd => glyph_sequence E sd.1 sd.2)

/-- The 32 frame-buffer bytes carried by the 38 bytes of one flush: what is left after
removing `FE 01 FE 02` (offsets 0-3) and `FE C0` (offsets 20-21). -/
def frame_of_flush (bytes : List Nat) : List Nat :=
  (bytes.drop 4).take 16 ++ (bytes.drop 22).take 16

/-- The function `ax93304_backlight`; `on_` is its parameter `on`. -/
def ax93304_backlight (p : PrivateData) (on_ : Int) : PrivateData :=
  if on_ ≠ 0 then sys_write p [0xFB, 0xFB] else sys_write p [0xFB, 0xFC]

/-- The function `ax93304_width`. -/
def ax93304_width (p : PrivateData) : Int := p.width

/-- The function `ax93304_height`: it returns `p->cellheight`. -/
def ax93304_height (p : PrivateData) : Int := p.cellheight

/-- The function `ax93304_cellwidth`: it returns `p->width`. -/
def ax93304_cellwidth (p : PrivateData) : Int := p.width

/-- The function `ax93304_cellheight`. -/
def ax93304_cellheight (p : PrivateData) : Int := p.cellheight

/-- The icon codes `ICON_*` of `lcd.h` (not under src/), taken as parameters. -/
structure Icons where
  ICON_BLOCK_FILLED : Int
  ICON_HEART_OPEN : Int
  ICON_HEART_FILLED : Int
  ICON_ARROW_UP : Int
  ICON_ARROW_DOWN : Int
  ICON_ARROW_LEFT : Int
  ICON_ARROW_RIGHT : Int
  ICON_CHECKBOX_OFF : Int
  ICON_CHECKBOX_ON : Int
  ICON_CHECKBOX_GRAY : Int

/-- The ten icon codes are pairwise different, as the values of one enumeration are. -/
def Icons.Distinct (K : Icons) : Prop :=
  [K.ICON_BLOCK_FILLED, K.ICON_HEART_OPEN, K.ICON_HEART_FILLED, K.ICON_ARROW_UP,
   K.ICON_ARROW_DOWN, K.ICON_ARROW_LEFT, K.ICON_ARROW_RIGHT, K.ICON_CHECKBOX_OFF,
   K.ICON_CHECKBOX_ON, K.ICON_CHECKBOX_GRAY].Nodup

instance (K : Icons) : Decidable K.Distinct := by
  unfold Icons.Distinct; infer_instance

/-- A sample set of icon codes (the numbering used by lcdproc's `lcd.h`). -/
def lcdIcons : Icons :=
  { ICON_BLOCK_FILLED := 0x100, ICON_HEART_OPEN := 0x108, ICON_HEART_FILLED := 0x109,
    ICON_ARROW_UP := 0x110, ICON_ARROW_DOWN := 0x111, ICON_ARROW_LEFT := 0x112,
    ICON_ARROW_RIGHT := 0x113, ICON_CHECKBOX_OFF := 0x120, ICON_CHECKBOX_ON := 0x121,
    ICON_CHECKBOX_GRAY := 0x122 }

/-- Modelled from the spec: the bitmap-row names of `lcd.h` (not under src/); a row is a
bitmask of 5 significant bits, and a name spells it out, `X` a set pixel and `_` a clear
one, most significant bit first.  This is the empty row. -/
def b_______ : Nat := 0x00
/-- Modelled from the spec: bitmap-row name of `lcd.h`, bits `11111`. -/
def b__XXXXX : Nat := 0x1F
/-- Modelled from the spec: bitmap-row name of `lcd.h`, bits `10101`. -/
def b__X_X_X : Nat := 0x15
/-- Modelled from the spec: bitmap-row name of `lcd.h`, bits `10001`. -/
def b__X___X : Nat := 0x11
/-- Modelled from the spec: bitmap-row name of `lcd.h`, bits `11011`. -/
def b__XX_XX : Nat := 0x1B
/-- Modelled from the spec: bitmap-row name of `lcd.h`, bits `01010`. -/
def b___X_X_ : Nat := 0x0A
/-- Modelled from the spec: bitmap-row name of `lcd.h`, bits `01110`. -/
def b___XXX_ : Nat := 0x0E
/-- Modelled from the spec: bitmap-row name of `lcd.h`, bits `00100`. -/
def b____X__ : Nat := 0x04
/-- Modelled from the spec: bitmap-row name of `lcd.h`, bits `11101`. -/
def b__XXX_X : Nat := 0x1D
/-- Modelled from the spec: bitmap-row name of `lcd.h`, bits `10110`. -/
def b__X_XX_ : Nat := 0x16

/-- The table `heart_open` of `ax93304_icon`. -/
def heart_open : List Nat :=
  [b__XXXXX, b__X_X_X, b_______, b_______, b_______, b__X___X, b__XX_XX, b__XXXXX]

/-- The table `heart_filled` of `ax93304_icon`. -/
def heart_filled : List Nat :=
  [b__XXXXX, b__X_X_X, b___X_X_, b___XXX_, b___XXX_, b__X_X_X, b__XX_XX, b__XXXXX]

/-- The table `arrow_up` of `ax93304_icon`. -/
def arrow_up : List Nat :=
  [b____X__, b___XXX_, b__X_X_X, b____X__, b____X__, b____X__, b____X__, b_______]

/-- The table `arrow_down` of `ax93304_icon`. -/
def arrow_down : List Nat :=
  [b____X__, b____X__, b____X__, b____X__, b__X_X_X, b___XXX_, b____X__, b_______]

/-- The table `checkbox_off` of `ax93304_icon`. -/
def checkbox_off : List Nat :=
  [b_______, b_______, b__XXXXX, b__X___X, b__X___X, b__X___X, b__XXXXX, b_______]

/-- The table `checkbox_on` of `ax93304_icon`. -/
def checkbox_on : List Nat :=
  [b____X__, b____X__, b__XXX_X, b__X_XX_, b__X_X_X, b__X___X, b__XXXXX, b_______]

/-- The table `checkbox_gray` of `ax93304_icon`. -/
def checkbox_gray : List Nat :=
  [b_______, b_______, b__XXXXX, b__X_X_X, b__XX_XX, b__X_X_X, b__XXXXX, b_______]

/-- The table `block_filled` of `ax93304_icon` (defined there, used nowhere). -/
def block_filled : List Nat :=
  [b__XXXXX, b__XXXXX, b__XXXXX, b__XXXXX, b__XXXXX, b__XXXXX, b__XXXXX, b__XXXXX]

/-- The last `switch` of `ax93304_icon` (lines 611-635), with the `return 0` after it. -/
def ax93304_icon_custom (K : Icons) (E : Env) (p : PrivateData) (x y icon : Int) :
    PrivateData × Int :=
  if icon = K.ICON_ARROW_UP then
    (ax93304_chr (ax93304_set_char E p 1 (some arrow_up)) x y 1, 0)
  else if icon = K.ICON_ARROW_DOWN then
    (ax93304_chr (ax93304_set_char E p 2 (some arrow_down)) x y 2, 0)
  else if icon = K.ICON_CHECKBOX_OFF then
    (ax93304_chr (ax93304_set_char E p 3 (some checkbox_off)) x y 3, 0)
  else if icon = K.ICON_CHECKBOX_ON then
    (ax93304_chr (ax93304_set_char E p 4 (some checkbox_on)) x y 4, 0)
  else if icon = K.ICON_CHECKBOX_GRAY then
    (ax93304_chr (ax93304_set_char E p 5 (some checkbox_gray)) x y 5, 0)
  else
    (p, -1)

/-- The function `ax93304_icon`: the driver after the call and the value returned. -/
def ax93304_icon (K : Icons) (E : Env) (p : PrivateData) (x y icon : Int) :
    PrivateData × Int :=
  if icon = K.ICON_ARROW_LEFT then (ax93304_chr p x y 0x1B, 0)
  else if icon = K.ICON_ARROW_RIGHT then (ax93304_chr p x y 0x1A, 0)
  else if icon = K.ICON_HEART_FILLED ∨ icon = K.ICON_HEART_OPEN then
    if p.ccmode ≠ CGmode.bignum ∧ p.ccmode ≠ CGmode.vbar then
      if icon = K.ICON_HEART_FILLED then
        (ax93304_chr (ax93304_set_char E p 7 (some heart_filled)) x y 7, 0)
      else if icon = K.ICON_HEART_OPEN then
        (ax93304_chr (ax93304_set_char E p 7 (some heart_open)) x y 7, 0)
      else
        ax93304_icon_custom K E p x y icon
    else
      (p, -1)
  else
    ax93304_icon_custom K E p x y icon

/-- The function `ax93304_get_key`: `sel` is what `select` returns, `retval` what `read`
returns and `ch` the byte it read; the result is the driver after the call and the key
name, `none` for `NULL`. -/
def ax93304_get_key (p : PrivateData) (sel retval : Int) (ch : Nat) :
    PrivateData × Option String :=
  let p1 := sys_write p [0xFD]
  if sel ≠ 0 then
    if retval > 0 then
      if ch = 0x4D then (p1, some "Up")
      else if ch = 0x47 then (p1, some "Down")
      else if ch = 0x4B then (p1, some "Escape")
      else if ch = 0x4E then (p1, some "Enter")
      else (p1, none)
    else (p1, none)
  else (p1, none)

/-- What `ax93304_init` gets from outside: whether `calloc` and `malloc` succeed, what
`store_private_ptr`, `config_get_int(.., "Speed", 0, 9600)` and `open` return, and the
`termios.h` speed constants. -/
structure InitWorld where
  calloc_ok : Bool
  store_result : Int
  config_speed : Int
  B1200 : Int
  B2400 : Int
  B9600 : Int
  B19200 : Int
  open_result : Int
  malloc_ok : Bool

/-- The private data as `ax93304_init` and `ax93304_close` see it: with the descriptor
`fd` and a `framebuf` pointer that may be null (`none`); `device` is left out. -/
structure RawPrivate where
  speed : Int
  fd : Int
  width : Int
  height : Int
  cellwidth : Int
  cellheight : Int
  framebuf : Option (List Nat)
  ccmode : CGmode
deriving DecidableEq, Repr

/-- The driver after `ax93304_init` or `ax93304_close`: the value returned, the pointer held
by `drvthis->private_data` (`none` for `NULL`), and the bytes written to the device. -/
structure Loaded where
  ret : Int
  private_data : Option RawPrivate
  tx : List Nat
deriving DecidableEq, Repr

/-- The function `ax93304_close`, on the private pointer `d` with `tx` already sent. -/
def ax93304_close (d : Option RawPrivate) (tx : List Nat) : Option RawPrivate × List Nat :=
  match d with
  | some p => (none, if p.fd ≥ 0 then tx ++ [0xFE, 0x08, 0xFB, 0xFC] else tx)
  | none => (none, tx)

/-- The function `ax93304_init`. -/
def ax93304_init (W : InitWorld) : Loaded :=
  if W.calloc_ok = false then { ret := -1, private_data := none, tx := [] }
  else if W.store_result ≠ 0 then { ret := -1, private_data := none, tx := [] }
  else
    let p : RawPrivate :=
      { fd := -1, speed := W.B9600, width := 16, height := 2, cellwidth := 5,
        cellheight := 8, framebuf := none, ccmode := CGmode.standard }
    let p := { p with speed := W.config_speed }
    let p := { p with speed :=
      if p.speed = 1200 then W.B1200
      else if p.speed = 2400 then W.B2400
      else if p.speed = 9600 then W.B9600
      else if p.speed = 19200 then W.B19200
      else W.B9600 }
    let p := { p with fd := W.open_result }
    if p.fd = -1 then { ret := -1, private_data := some p, tx := [] }
    else if W.malloc_ok = false then
      let c := ax93304_close (some p) []
      { ret := -1, private_data := c.1, tx := c.2 }
    else
      let p := { p with framebuf := some (List.replicate (p.width * p.height).toNat 0x20) }
      { ret := 0, private_data := some p, tx := [0xFE, 0x01, 0xFE, 0x02] }

/-- The private data of a loaded driver as the drawing operations use it: defined once the
frame buffer exists. -/
def Loaded.view (L : Loaded) : Option PrivateData :=
  match L.private_data with
  | some d =>
    match d.framebuf with
    | some fb =>
      some { width := d.width, height := d.height, cellwidth := d.cellwidth,
             cellheight := d.cellheight, framebuf := fb, ccmode := d.ccmode,
             tx := L.tx, stray := [] }
    | none => none
  | none => none

/-- One call of a driver operation, with its arguments (for `get_key`: what `select` and
`read` return and the byte read). -/
inductive Op where
  | chr (x y : Int) (c : Nat)
  | string (x y : Int) (s : List Nat)
  | flush
  | backlight (on_ : Int)
  | set_char (n : Int) (dat : Option (List Nat))
  | vbar (x y len promille options : Int)
  | hbar (x y len promille options : Int)
  | icon (x y icon : Int)
  | get_key (sel retval : Int) (ch : Nat)
  | clear

/-- The driver after one operation. -/
def perform (K : Icons) (E : Env) (p : PrivateData) : Op → PrivateData
  | Op.chr x y c => ax93304_chr p x y c
  | Op.string x y s => ax93304_string p x y s
  | Op.flush => ax93304_flush p
  | Op.backlight on_ => ax93304_backlight p on_
  | Op.set_char n dat => ax93304_set_char E p n dat
  | Op.vbar x y len promille options => ax93304_vbar E p x y len promille options
  | Op.hbar x y len promille options => ax93304_hbar E p x y len promille options
  | Op.icon x y icon => (ax93304_icon K E p x y icon).1
  | Op.get_key sel retval ch => (ax93304_get_key p sel retval ch).1
  | Op.clear => ax93304_clear p

/-- The driver after a sequence of operations, first to last. -/
def perform_all (K : Icons) (E : Env) (p : PrivateData) (ops : List Op) : PrivateData :=
  ops.foldl (perform K E) p

/-- A world in which everything `ax93304_init` asks for succeeds (descriptor 3). -/
def goodWorld : InitWorld :=
  { calloc_ok := true, store_result := 0, config_speed := 9600, B1200 := 9, B2400 := 11,
    B9600 := 13, B19200 := 14, open_result := 3, malloc_ok := true }

/-! ## Field lemmas -/

@[simp] theorem sys_write_tx (p : PrivateData) (bs : List Nat) :
    (sys_write p bs).tx = p.tx ++ bs := rfl

theorem set_char_eq (E : Env) (p : PrivateData) (n : Int) (d : List Nat)
    (hI : Initialised p) (h0 : 0 ≤ n) (h8 : n < 8) :
    ax93304_set_char E p n (some d) = { p with tx := p.tx ++ glyph_sequence E n d } := by
  obtain ⟨hw, hh, hcw, hch, hlen⟩ := hI
  have hn : ¬ (n < 0 ∨ n ≥ NUM_CCs) := by
    simp only [NUM_CCs]; omega
  unfold ax93304_set_char
  simp only [hn, if_false, hcw, hch]
  cases hpk : E.peek (0x40 + n * 8) <;>
    simp [sys_write, sys_write_at, hpk, glyph_sequence, List.range_succ, hcw, hch]

theorem masked_rows_eq (d : List Nat) (hlen : d.length = 8) (hb : ∀ b ∈ d, b < 256) :
    (List.range 8).map (fun row => (d.getD row 0 % 256) &&& 0x1F)
      = d.map (fun b => b &&& 0x1F) := by
  rcases d with _ | ⟨a0, _ | ⟨a1, _ | ⟨a2, _ | ⟨a3, _ | ⟨a4, _ | ⟨a5, _ | ⟨a6, _ | ⟨a7, _ | ⟨a8, t⟩⟩⟩⟩⟩⟩⟩⟩⟩ <;>
    simp at hlen
  simp only [List.mem_cons, List.mem_singleton, forall_eq_or_imp, List.not_mem_nil] at hb
  obtain ⟨h0, h1, h2, h3, h4, h5, h6, h7, -⟩ := hb
  simp [List.range_succ, Nat.mod_eq_of_lt, *]

/-- C1 (what the code does): for a slot `0 <= n <= 7` and an 8-byte bitmap, the call sends
`FE`, then the byte found AT ADDRESS `0x40 + 8*n` of the process (nothing when that
address is unmapped) where the claim has the value `0x40 + 8*n`, then the 8 rows masked with
`0x1F`, then `FE FF`; frame buffer, mode and every other field are unchanged. -/
theorem set_char_sends_byte_at_address (E : Env) (p : PrivateData) (n : Int) (dat : List Nat)
    (hI : Initialised p) (h0 : 0 ≤ n) (h7 : n ≤ 7)
    (hlen : dat.length = 8) (hb : ∀ b ∈ dat, b < 256) :
    ax93304_set_char E p n (some dat)
      = { p with tx := p.tx ++ ([0xFE] ++ (E.peek (0x40 + 8 * n)).toList
            ++ dat.map (fun b => b &&& 0x1F) ++ [0xFE, 0xFF]) } := by
  rw [set_char_eq E p n dat hI h0 (by omega)]
  simp only [glyph_sequence, masked_rows_eq dat hlen hb, mul_comm n 8]

/-- C1 at the failing input: slot 0, bitmap of eight `0x1F` rows, page zero unmapped.  Eleven
bytes are sent after the four of `init`; the address byte `0x40` is not among them. -/
theorem set_char_sends_byte_at_address_witness :
    Initialised initial ∧
    (ax93304_set_char pageZeroEnv initial 0
        (some [0x1F, 0x1F, 0x1F, 0x1F, 0x1F, 0x1F, 0x1F, 0x1F])).tx
      = [0xFE, 0x01, 0xFE, 0x02,
         0xFE, 0x1F, 0x1F, 0x1F, 0x1F, 0x1F, 0x1F, 0x1F, 0x1F, 0xFE, 0xFF] :=
  ⟨by decide, by
    rw [set_char_sends_byte_at_address pageZeroEnv initial 0
      [0x1F, 0x1F, 0x1F, 0x1F, 0x1F, 0x1F, 0x1F, 0x1F]
      (by decide) (by decide) (by decide) (by decide) (by decide)]
    rfl⟩

/-! ## Stores into the frame buffer -/

theorem poke_fields (p : PrivateData) (idx : Int) (c : Nat) :
    (poke p idx c).width = p.width ∧ (poke p idx c).height = p.height ∧
    (poke p idx c).cellwidth = p.cellwidth ∧ (poke p idx c).cellheight = p.cellheight ∧
    (poke p idx c).ccmode = p.ccmode ∧ (poke p idx c).tx = p.tx ∧
    (poke p idx c).framebuf.length = p.framebuf.length := by
  unfold poke
  split <;> simp

theorem poke_in (p : PrivateData) (idx : Int) (c : Nat)
    (h : 0 ≤ idx ∧ idx < p.framebuf.length) :
    poke p idx c = { p with framebuf := p.framebuf.set idx.toNat c } := by
  unfold poke
  rw [if_pos h]

theorem poke_get_other (p : PrivateData) (idx : Int) (c : Nat) (j : Nat)
    (h : (j : Int) ≠ idx) :
    (poke p idx c).framebuf.get? j = p.framebuf.get? j := by
  unfold poke
  split
  · rename_i hin
    have : idx.toNat ≠ j := by omega
    simp [List.getElem?_set_ne this]
  · rfl

theorem poke_get_same (p : PrivateData) (idx : Int) (c : Nat)
    (h : 0 ≤ idx ∧ idx < p.framebuf.length) :
    (poke p idx c).framebuf.get? idx.toNat = some c := by
  rw [poke_in p idx c h]
  have : idx.toNat < p.framebuf.length := by omega
  simp [this]

theorem string_loop_fields (x y : Int) (s : List Nat) (i : Int) (p : PrivateData) :
    (ax93304_string_loop x y s i p).width = p.width ∧
    (ax93304_string_loop x y s i p).height = p.height ∧
    (ax93304_string_loop x y s i p).cellwidth = p.cellwidth ∧
    (ax93304_string_loop x y s i p).cellheight = p.cellheight ∧
    (ax93304_string_loop x y s i p).ccmode = p.ccmode ∧
    (ax93304_string_loop x y s i p).tx = p.tx ∧
    (ax93304_string_loop x y s i p).framebuf.length = p.framebuf.length := by
  induction s generalizing i p with
  | nil => simp [ax93304_string_loop]
  | cons ch rest ih =>
    unfold ax93304_string_loop
    split
    · simp
    · simp only
      split
      · simp
      · obtain ⟨h1, h2, h3, h4, h5, h6, h7⟩ := ih (i + 1) (poke p (y * p.width + x + i)
          (if ch % 256 > 0x7F ∧ ch % 256 < 0x98 then 0x20 else ch % 256))
        obtain ⟨k1, k2, k3, k4, k5, k6, k7⟩ := poke_fields p (y * p.width + x + i)
          (if ch % 256 > 0x7F ∧ ch % 256 < 0x98 then 0x20 else ch % 256)
        exact ⟨h1.trans k1, h2.trans k2, h3.trans k3, h4.trans k4, h5.trans k5,
          h6.trans k6, h7.trans k7⟩

/-- Cells below the position the loop has reached are not touched. -/
theorem string_loop_get_below (x y : Int) (s : List Nat) (i : Int) (p : PrivateData)
    (j : Nat) (h : (j : Int) < y * p.width + x + i) :
    (ax93304_string_loop x y s i p).framebuf.get? j = p.framebuf.get? j := by
  induction s generalizing i p with
  | nil => simp [ax93304_string_loop]
  | cons ch rest ih =>
    unfold ax93304_string_loop
    split
    · rfl
    · simp only
      split
      · rfl
      · have hw := (poke_fields p (y * p.width + x + i)
          (if ch % 256 > 0x7F ∧ ch % 256 < 0x98 then 0x20 else ch % 256)).1
        rw [ih (i + 1) _ (by rw [hw]; omega)]
        exact poke_get_other p _ _ j (by omega)

/-- Cells at or beyond the position of the terminating NUL are not touched. -/
theorem string_loop_get_above (x y : Int) (s : List Nat) (i : Int) (p : PrivateData)
    (j : Nat) (h : y * p.width + x + i + s.length ≤ (j : Int)) :
    (ax93304_string_loop x y s i p).framebuf.get? j = p.framebuf.get? j := by
  induction s generalizing i p with
  | nil => simp [ax93304_string_loop]
  | cons ch rest ih =>
    unfold ax93304_string_loop
    split
    · rfl
    · simp only
      split
      · rfl
      · have hw := (poke_fields p (y * p.width + x + i)
          (if ch % 256 > 0x7F ∧ ch % 256 < 0x98 then 0x20 else ch % 256)).1
        simp only [List.length_cons, Nat.cast_add, Nat.cast_one] at h
        rw [ih (i + 1) _ (by rw [hw]; omega)]
        exact poke_get_other p _ _ j (by omega)

/-- Every byte of the string whose cell lies inside the block ends up there, with the
bytes `0x80 .. 0x97` replaced by a space. -/
theorem string_loop_get_written (x y : Int) (s : List Nat) (i : Int) (p : PrivateData)
    (hs : ∀ ch ∈ s, 0 < ch ∧ ch < 256)
    (k : Nat) (c : Nat) (hk : s.get? k = some c)
    (h0 : 0 ≤ y * p.width + x + i)
    (hlt : y * p.width + x + i + k < p.framebuf.length)
    (hsz : (p.framebuf.length : Int) ≤ p.width * p.height) :
    (ax93304_string_loop x y s i p).framebuf.get? (y * p.width + x + i + k).toNat
      = some (if 0x80 ≤ c ∧ c ≤ 0x97 then 0x20 else c) := by
  induction s generalizing i p k with
  | nil => simp at hk
  | cons ch rest ih =>
    have hch := hs ch (List.mem_cons_self _ _)
    have hmod : ch % 256 = ch := Nat.mod_eq_of_lt hch.2
    have hnz : ¬ (ch % 256 = 0) := by omega
    have hle : ¬ (y * p.width + x + i > p.width * p.height) := by omega
    unfold ax93304_string_loop
    simp only [hnz, if_false, hle]
    obtain ⟨k1, k2, -, -, -, -, k7⟩ := poke_fields p (y * p.width + x + i)
      (if ch % 256 > 0x7F ∧ ch % 256 < 0x98 then 0x20 else ch % 256)
    cases k with
    | zero =>
      simp only [List.get?_cons_zero, Option.some.injEq] at hk
      subst hk
      simp only [Nat.cast_zero, add_zero]
      rw [string_loop_get_below x y rest (i + 1) _ _ (by rw [k1]; omega)]
      rw [poke_get_same p _ _ ⟨h0, by omega⟩, hmod]
      congr 1
      split_ifs <;> first | rfl | omega
    | succ k' =>
      simp only [List.get?_cons_succ] at hk
      have hrest : ∀ b ∈ rest, 0 < b ∧ b < 256 := fun b hb => hs b (List.mem_cons_of_mem _ hb)
      have hidx : y * p.width + x + i + ((k' + 1 : Nat) : Int)
          = y * (poke p (y * p.width + x + i)
              (if ch % 256 > 0x7F ∧ ch % 256 < 0x98 then 0x20 else ch % 256)).width
            + x + (i + 1) + (k' : Int) := by
        rw [k1]; push_cast; ring
      rw [hidx]
      apply ih (i + 1) _ hrest k' hk
      · rw [k1]; omega
      · rw [k1, k7]; push_cast at hlt; omega
      · rw [k1, k2, k7]; exact hsz

/-- The cell `ax93304_chr` writes, for an in-range position on an initialised driver. -/
theorem chr_eq (p : PrivateData) (x y : Int) (c : Nat)
    (hI : Initialised p) (hx1 : 1 ≤ x) (hx : x ≤ 16) (hy1 : 1 ≤ y) (hy : y ≤ 2)
    (hc : c < 256) :
    ax93304_chr p x y c
      = { p with
          framebuf := List.set p.framebuf (Int.toNat ((y - 1) * 16 + (x - 1)))
            (if 0x80 ≤ c ∧ c ≤ 0x97 then 0x20 else c) } := by
  obtain ⟨hw, hh, hcw, hch, hlen⟩ := hI
  unfold ax93304_chr
  simp only [hw, Nat.mod_eq_of_lt hc]
  rw [poke_in p _ _ ⟨by omega, by rw [hlen]; push_cast; omega⟩]
  congr 2
  split_ifs <;> first | rfl | omega

/-- C2: on an initialised driver and for an in-range position `(x,y)`, the cell that
`ax93304_chr` writes holds a space when the byte is in `0x80 .. 0x97` and the byte itself
otherwise; `ax93304_string` stores every byte of the string whose cell lies inside the
32-byte block under the very same rule. -/
theorem write_paths_substitute_space (p : PrivateData) (x y : Int)
    (hI : Initialised p) (hx1 : 1 ≤ x) (hx : x ≤ 16) (hy1 : 1 ≤ y) (hy : y ≤ 2) :
    (∀ c : Nat, c < 256 →
      (ax93304_chr p x y c).framebuf.get? ((y - 1) * 16 + (x - 1)).toNat
        = some (if 0x80 ≤ c ∧ c ≤ 0x97 then 0x20 else c)) ∧
    (∀ s : List Nat, (∀ ch ∈ s, 0 < ch ∧ ch < 256) →
      ∀ (i : Nat) (c : Nat), s.get? i = some c → (y - 1) * 16 + (x - 1) + i < 32 →
        (ax93304_string p x y s).framebuf.get? ((y - 1) * 16 + (x - 1) + i).toNat
          = some (if 0x80 ≤ c ∧ c ≤ 0x97 then 0x20 else c)) := by
  obtain ⟨hw, hh, hcw, hch, hlen⟩ := hI
  constructor
  · intro c hc
    rw [chr_eq p x y c ⟨hw, hh, hcw, hch, hlen⟩ hx1 hx hy1 hy hc]
    have hlt : ((y - 1) * 16 + (x - 1)).toNat < p.framebuf.length := by omega
    simp [hlt]
  · intro s hs i c hic hlt
    unfold ax93304_string
    have h := string_loop_get_written (x - 1) (y - 1) s 0 p hs i c hic
      (by rw [hw]; omega) (by rw [hw, hlen]; push_cast; omega)
      (by rw [hw, hh, hlen]; norm_num)
    rw [hw] at h
    simpa using h

/-- C2 at a concrete input: row 2, column 3 of the initial screen (linear index 18). -/
theorem write_paths_substitute_space_witness :
    Initialised initial ∧
    (ax93304_chr initial 3 2 0x85).framebuf.get? 18 = some 0x20 ∧
    (ax93304_chr initial 3 2 0x41).framebuf.get? 18 = some 0x41 ∧
    (ax93304_string initial 3 2 [0x41, 0x85]).framebuf.get? 19 = some 0x20 :=
  ⟨by decide,
   (write_paths_substitute_space initial 3 2 (by decide) (by decide) (by decide)
      (by decide) (by decide)).1 0x85 (by decide),
   (write_paths_substitute_space initial 3 2 (by decide) (by decide) (by decide)
      (by decide) (by decide)).1 0x41 (by decide),
   (write_paths_substitute_space initial 3 2 (by decide) (by decide) (by decide)
      (by decide) (by decide)).2 [0x41, 0x85] (by decide) 1 0x85 rfl (by decide)⟩

/-- C3 at the failing input: on the initial screen `ax93304_string(16, 2, "AB")` stores
the second byte at index 32, one past the 32-byte block (indices 0 .. 31). -/
theorem string_stores_one_past_block :
    Initialised initial ∧
    (ax93304_string initial 16 2 [0x41, 0x42]).stray = [(32, 0x42)] :=
  ⟨by decide, by decide⟩

/-- C4 refuted: a 17-byte string written at (1,1) on the initial screen changes the
first cell of row 2 (linear index 16) from a space to the string's last byte. -/
theorem string_runs_into_row_two :
    Initialised initial ∧
    ¬ (∀ j : Nat, 16 ≤ j → j < 32 →
        (ax93304_string initial 1 1 (List.replicate 17 0x41)).framebuf.get? j
          = initial.framebuf.get? j) := by
  refine ⟨by decide, fun h => ?_⟩
  have h16 := h 16 (by decide) (by decide)
  revert h16
  decide

/-- C4 as amended: a string written at `(x,1)` (any column `x`, so also `1 <= x <= 16`)
leaves unchanged every cell of row 2 whose linear index is at least `(x-1) + length s`; so
all of row 2 is unchanged when the string is no longer than the `16 - x + 1` columns left in
row 1. -/
theorem string_leaves_row_two_past_its_end (p : PrivateData) (x : Int) (s : List Nat)
    (hI : Initialised p) :
    (∀ j : Nat, 16 ≤ j → j < 32 → (x - 1) + s.length ≤ (j : Int) →
      (ax93304_string p x 1 s).framebuf.get? j = p.framebuf.get? j) ∧
    ((s.length : Int) ≤ 16 - x + 1 → ∀ j : Nat, 16 ≤ j → j < 32 →
      (ax93304_string p x 1 s).framebuf.get? j = p.framebuf.get? j) := by
  obtain ⟨hw, hh, hcw, hch, hlen⟩ := hI
  have key : ∀ j : Nat, (x - 1) + s.length ≤ (j : Int) →
      (ax93304_string p x 1 s).framebuf.get? j = p.framebuf.get? j := by
    intro j hj
    unfold ax93304_string
    exact string_loop_get_above (x - 1) (1 - 1) s 0 p j (by rw [hw]; omega)
  exact ⟨fun j _ _ hj => key j hj, fun hfit j h16 _ => key j (by omega)⟩

/-- C4 as amended, at a concrete input: "AB" at (15,1) leaves row 2 as it was. -/
theorem string_leaves_row_two_past_its_end_witness :
    Initialised initial ∧
    (∀ j : Nat, 16 ≤ j → j < 32 →
      (ax93304_string initial 15 1 [0x41, 0x42]).framebuf.get? j = initial.framebuf.get? j) :=
  ⟨by decide,
   (string_leaves_row_two_past_its_end initial 15 [0x41, 0x42] (by decide)).2 (by decide)⟩

/-! ## Clear and flush -/

theorem flush_eq (p : PrivateData) :
    ax93304_flush p = { p with tx := p.tx ++ ([0xFE, 0x01, 0xFE, 0x02] ++ p.framebuf.take 16
        ++ [0xFE, 0xC0] ++ (p.framebuf.drop 16).take 16) } := by
  simp [ax93304_flush, sys_write]

theorem sent_append (p : PrivateData) (l : List Nat) :
    sent p { p with tx := p.tx ++ l } = l := by
  simp [sent]

theorem frame_of_flush_eq (fb : List Nat) (h : fb.length = 32) (a b c d e f : Nat) :
    frame_of_flush ([a, b, c, d] ++ fb.take 16 ++ [e, f] ++ (fb.drop 16).take 16) = fb := by
  have hA : (fb.take 16).length = 16 := by simp [h]
  have hB : ((fb.drop 16).take 16).length = 16 := by simp [h]
  have h1 : ([a, b, c, d] ++ fb.take 16 ++ [e, f] ++ (fb.drop 16).take 16)
      = [a, b, c, d] ++ (fb.take 16 ++ ([e, f] ++ (fb.drop 16).take 16)) := by simp
  have h2 : (([a, b, c, d] ++ fb.take 16 ++ [e, f]).length) = 22 := by simp [hA]
  unfold frame_of_flush
  rw [List.drop_left' h2]
  have h4 : [a, b, c, d].length = 4 := rfl
  rw [h1, List.drop_left' h4, List.take_left' hA]
  have hBB : List.take 16 ((fb.drop 16).take 16) = (fb.drop 16).take 16 :=
    List.take_of_length_le (by omega)
  have hD : (fb.drop 16).take 16 = fb.drop 16 := List.take_of_length_le (by simp [h])
  rw [hBB, hD, List.take_append_drop]

theorem memset_aux (c : Nat) (p : PrivateData) (n : Nat) (hn : n ≤ p.framebuf.length) :
    ∃ fb : List Nat,
      (List.range n).foldl (fun q (i : Nat) => poke q (i : Int) c) p = { p with framebuf := fb }
      ∧ fb.length = p.framebuf.length
      ∧ ∀ j : Nat, fb.get? j = if j < n then some c else p.framebuf.get? j := by
  induction n with
  | zero => exact ⟨p.framebuf, by simp, rfl, by simp⟩
  | succ n ih =>
    obtain ⟨fb, hfold, hlen, hget⟩ := ih (by omega)
    refine ⟨fb.set n c, ?_, by simp [hlen], ?_⟩
    · rw [List.range_succ, List.foldl_append, hfold]
      simp only [List.foldl_cons, List.foldl_nil]
      rw [poke_in _ _ _ ⟨by omega, by simp only [hlen]; omega⟩]
      simp
    · intro j
      by_cases hj : j = n
      · subst hj
        have : j < fb.length := by omega
        simp [this]
      · have hne : n ≠ j := fun h => hj h.symm
        rw [List.get?_eq_getElem?, List.getElem?_set_ne hne, ← List.get?_eq_getElem?, hget j]
        by_cases hlt : j < n
        · simp [hlt, Nat.lt_succ_of_lt hlt]
        · have : ¬ j < n + 1 := by omega
          simp [hlt, this]

theorem clear_eq (p : PrivateData) (hI : Initialised p) :
    ax93304_clear p
      = { p with framebuf := List.replicate 32 0x20, ccmode := CGmode.standard } := by
  obtain ⟨hw, hh, hcw, hch, hlen⟩ := hI
  obtain ⟨fb, hfold, hl, hget⟩ := memset_aux 0x20 p 32 (by omega)
  have hfb : fb = List.replicate 32 0x20 := by
    rw [List.eq_replicate_iff]
    refine ⟨by omega, fun b hb => ?_⟩
    obtain ⟨j, hj⟩ := List.mem_iff_get?.mp hb
    have hlt : j < 32 := by
      by_contra hge
      have hnone : fb.get? j = none := List.get?_eq_none.mpr (by omega)
      rw [hnone] at hj
      exact Option.noConfusion hj
    have h2 := hget j
    rw [if_pos hlt, hj] at h2
    exact Option.some.inj h2
  unfold ax93304_clear memset_framebuf
  have h32 : (p.width * p.height).toNat = 32 := by rw [hw, hh]; rfl
  simp only [h32, hfold, hfb]

/-- C5 refuted: `ax93304_chr(1, 1, 0x80)` on the initial screen followed by a flush sends a
space, not `0x80`, at offset 0 of the 32 frame bytes. -/
theorem chr_flush_sends_space_for_0x80 :
    Initialised initial ∧
    (frame_of_flush (sent (ax93304_chr initial 1 1 0x80)
        (ax93304_flush (ax93304_chr initial 1 1 0x80)))).get? 0 = some 0x20 ∧
    ¬ ((frame_of_flush (sent (ax93304_chr initial 1 1 0x80)
        (ax93304_flush (ax93304_chr initial 1 1 0x80)))).get? 0 = some 0x80) := by
  decide

/-- C5 as amended: for `1 <= x <= 16`, `1 <= y <= 2` and a byte `c`, `ax93304_chr(x, y, c)`
followed at once by `ax93304_flush` sends 38 bytes whose 32 frame bytes carry, at offset
`(y-1)*16 + (x-1)`, the byte `c` itself when `c` is outside `0x80 .. 0x97` and a space
`0x20` when `c` is inside that range. -/
theorem chr_then_flush_sends_stored_byte (p : PrivateData) (x y : Int) (c : Nat)
    (hI : Initialised p) (hx1 : 1 ≤ x) (hx : x ≤ 16) (hy1 : 1 ≤ y) (hy : y ≤ 2)
    (hc : c < 256) :
    (sent (ax93304_chr p x y c) (ax93304_flush (ax93304_chr p x y c))).length = 38 ∧
    (frame_of_flush (sent (ax93304_chr p x y c)
        (ax93304_flush (ax93304_chr p x y c)))).get? ((y - 1) * 16 + (x - 1)).toNat
      = some (if 0x80 ≤ c ∧ c ≤ 0x97 then 0x20 else c) := by
  have hlen : p.framebuf.length = 32 := hI.2.2.2.2
  rw [flush_eq, sent_append, chr_eq p x y c hI hx1 hx hy1 hy hc]
  constructor
  · simp [hlen]
  · rw [frame_of_flush_eq _ (by simp [hlen])]
    have hlt : ((y - 1) * 16 + (x - 1)).toNat < p.framebuf.length := by omega
    simp [hlt]

/-- C5 as amended, at concrete inputs: `A` at (16,2) arrives at offset 31, and `0x97` at
(1,1) arrives as a space at offset 0. -/
theorem chr_then_flush_sends_stored_byte_witness :
    Initialised initial ∧
    (frame_of_flush (sent (ax93304_chr initial 16 2 0x41)
        (ax93304_flush (ax93304_chr initial 16 2 0x41)))).get? 31 = some 0x41 ∧
    (frame_of_flush (sent (ax93304_chr initial 1 1 0x97)
        (ax93304_flush (ax93304_chr initial 1 1 0x97)))).get? 0 = some 0x20 :=
  ⟨by decide,
   (chr_then_flush_sends_stored_byte initial 16 2 0x41 (by decide) (by decide) (by decide)
      (by decide) (by decide) (by decide)).2,
   (chr_then_flush_sends_stored_byte initial 1 1 0x97 (by decide) (by decide) (by decide)
      (by decide) (by decide) (by decide)).2⟩

/-- C6: on an initialised driver, whatever the frame buffer holds and whatever the mode is,
`ax93304_clear` sends nothing and sets the mode to `standard`, and the flush that follows
sends exactly `FE 01 FE 02`, 16 spaces, `FE C0`, 16 spaces: 38 bytes. -/
theorem clear_then_flush_sends_blank_frame (p : PrivateData) (hI : Initialised p) :
    sent p (ax93304_flush (ax93304_clear p))
      = [0xFE, 0x01, 0xFE, 0x02] ++ List.replicate 16 0x20 ++ [0xFE, 0xC0]
          ++ List.replicate 16 0x20 ∧
    (sent p (ax93304_flush (ax93304_clear p))).length = 38 ∧
    (ax93304_clear p).ccmode = CGmode.standard ∧
    (ax93304_clear p).tx = p.tx := by
  rw [clear_eq p hI, flush_eq]
  simp [sent]

/-- C6 at a concrete input: a driver in `vbar` mode with `A` in every cell. -/
theorem clear_then_flush_sends_blank_frame_witness :
    Initialised { initial with framebuf := List.replicate 32 0x41, ccmode := CGmode.vbar } ∧
    sent { initial with framebuf := List.replicate 32 0x41, ccmode := CGmode.vbar }
      (ax93304_flush (ax93304_clear
        { initial with framebuf := List.replicate 32 0x41, ccmode := CGmode.vbar }))
      = [0xFE, 0x01, 0xFE, 0x02] ++ List.replicate 16 0x20 ++ [0xFE, 0xC0]
          ++ List.replicate 16 0x20 :=
  ⟨by decide,
   (clear_then_flush_sends_blank_frame
      { initial with framebuf := List.replicate 32 0x41, ccmode := CGmode.vbar }
      (by decide)).1⟩

/-- C7: `ax93304_flush` changes nothing but the serial line, on which it puts
`FE 01 FE 02`, cells 0-15, `FE C0`, cells 16-31 (38 bytes on an initialised driver); frame
buffer and mode are as before, so a second flush sends the same 38 bytes again. -/
theorem flush_retransmits_whole_surface (p : PrivateData) (hI : Initialised p) :
    ax93304_flush p = { p with tx := p.tx ++ ([0xFE, 0x01, 0xFE, 0x02] ++ p.framebuf.take 16
        ++ [0xFE, 0xC0] ++ (p.framebuf.drop 16).take 16) } ∧
    (ax93304_flush p).framebuf = p.framebuf ∧
    (ax93304_flush p).ccmode = p.ccmode ∧
    sent p (ax93304_flush p) = [0xFE, 0x01, 0xFE, 0x02] ++ p.framebuf.take 16
        ++ [0xFE, 0xC0] ++ (p.framebuf.drop 16).take 16 ∧
    (sent p (ax93304_flush p)).length = 38 ∧
    sent (ax93304_flush p) (ax93304_flush (ax93304_flush p)) = sent p (ax93304_flush p) := by
  have hlen : p.framebuf.length = 32 := hI.2.2.2.2
  refine ⟨flush_eq p, by rw [flush_eq], by rw [flush_eq], ?_, ?_, ?_⟩
  · rw [flush_eq, sent_append]
  · rw [flush_eq, sent_append]
    simp [hlen]
  · rw [flush_eq (ax93304_flush p), sent_append]
    rw [flush_eq p, sent_append]

/-- C7 at a concrete input: the initial screen with `A` written at (1,1). -/
theorem flush_retransmits_whole_surface_witness :
    Initialised (ax93304_chr initial 1 1 0x41) ∧
    sent (ax93304_flush (ax93304_chr initial 1 1 0x41))
        (ax93304_flush (ax93304_flush (ax93304_chr initial 1 1 0x41)))
      = sent (ax93304_chr initial 1 1 0x41) (ax93304_flush (ax93304_chr initial 1 1 0x41)) :=
  ⟨by decide,
   (flush_retransmits_whole_surface (ax93304_chr initial 1 1 0x41) (by decide)).2.2.2.2.2⟩

/-! ## Bar modes -/

theorem set_chars_fold (E : Env) (defs : List (Int × List Nat))
    (hd : ∀ sd ∈ defs, 0 ≤ sd.1 ∧ sd.1 < 8) (p : PrivateData) (hI : Initialised p) :
    defs.foldl (fun q sd => ax93304_set_char E q sd.1 (some sd.2)) p
      = { p with tx := p.tx ++ glyph_sequences E defs } := by
  induction defs generalizing p with
  | nil => simp [glyph_sequences]
  | cons sd rest ih =>
    have h1 := hd sd (List.mem_cons_self _ _)
    rw [List.foldl_cons, set_char_eq E p sd.1 sd.2 hI h1.1 h1.2]
    have hI' : Initialised { p with tx := p.tx ++ glyph_sequence E sd.1 sd.2 } := hI
    rw [ih (fun t ht => hd t (List.mem_cons_of_mem _ ht)) _ hI']
    simp [glyph_sequences]

theorem set_bar_chars_up (E : Env) (p : PrivateData) :
    set_bar_chars E bar_up 7 p
      = (List.zip [1, 2, 3, 4, 5, 6, 7] bar_up).foldl
          (fun q sd => ax93304_set_char E q sd.1 (some sd.2)) p := rfl

theorem set_bar_chars_right (E : Env) (p : PrivateData) :
    set_bar_chars E bar_right 4 p
      = (List.zip [1, 2, 3, 4] bar_right).foldl
          (fun q sd => ax93304_set_char E q sd.1 (some sd.2)) p := rfl

theorem bar_slots_in_range :
    (∀ sd ∈ List.zip [1, 2, 3, 4, 5, 6, 7] bar_up, (0 : Int) ≤ sd.1 ∧ sd.1 < 8) ∧
    (∀ sd ∈ List.zip [1, 2, 3, 4] bar_right, (0 : Int) ≤ sd.1 ∧ sd.1 < 8) := by
  decide

theorem vbar_glyphs_eq (E : Env) (p : PrivateData) (hI : Initialised p) :
    (List.zip [1, 2, 3, 4, 5, 6, 7] bar_up).foldl
        (fun q sd => ax93304_set_char E q sd.1 (some sd.2)) { p with ccmode := CGmode.vbar }
      = { p with ccmode := CGmode.vbar,
                 tx := p.tx ++ glyph_sequences E (List.zip [1, 2, 3, 4, 5, 6, 7] bar_up) } := by
  have hI' : Initialised { p with ccmode := CGmode.vbar } := hI
  rw [set_chars_fold E _ bar_slots_in_range.1 _ hI']

theorem hbar_glyphs_eq (E : Env) (p : PrivateData) (hI : Initialised p) :
    (List.zip [1, 2, 3, 4] bar_right).foldl
        (fun q sd => ax93304_set_char E q sd.1 (some sd.2)) { p with ccmode := CGmode.hbar }
      = { p with ccmode := CGmode.hbar,
                 tx := p.tx ++ glyph_sequences E (List.zip [1, 2, 3, 4] bar_right) } := by
  have hI' : Initialised { p with ccmode := CGmode.hbar } := hI
  rw [set_chars_fold E _ bar_slots_in_range.2 _ hI']

theorem vbar_standard_eq (E : Env) (p : PrivateData) (x y len promille options : Int)
    (hI : Initialised p) (hs : p.ccmode = CGmode.standard) :
    ax93304_vbar E p x y len promille options
      = E.lib_vbar_static
          { p with ccmode := CGmode.vbar,
                   tx := p.tx ++ glyph_sequences E (List.zip [1, 2, 3, 4, 5, 6, 7] bar_up) }
          x y len promille options 8 0x01 := by
  unfold ax93304_vbar
  simp only [hs, ne_eq, reduceCtorEq, not_false_eq_true, if_true, not_true_eq_false, if_false]
  rw [set_bar_chars_up, vbar_glyphs_eq E p hI]
  simp only [hI.2.2.2.1]

theorem hbar_standard_eq (E : Env) (p : PrivateData) (x y len promille options : Int)
    (hI : Initialised p) (hs : p.ccmode = CGmode.standard) :
    ax93304_hbar E p x y len promille options
      = E.lib_hbar_static
          { p with ccmode := CGmode.hbar,
                   tx := p.tx ++ glyph_sequences E (List.zip [1, 2, 3, 4] bar_right) }
          x y len promille options 5 0x01 := by
  unfold ax93304_hbar
  simp only [hs, ne_eq, reduceCtorEq, not_false_eq_true, if_true, not_true_eq_false, if_false]
  rw [set_bar_chars_right, hbar_glyphs_eq E p hI]
  simp only [hI.2.2.1]

theorem vbar_again_eq (E : Env) (p : PrivateData) (x y len promille options : Int)
    (hm : p.ccmode = CGmode.vbar) :
    ax93304_vbar E p x y len promille options
      = E.lib_vbar_static p x y len promille options p.cellheight 0x01 := by
  unfold ax93304_vbar
  simp [hm]

theorem hbar_again_eq (E : Env) (p : PrivateData) (x y len promille options : Int)
    (hm : p.ccmode = CGmode.hbar) :
    ax93304_hbar E p x y len promille options
      = E.lib_hbar_static p x y len promille options p.cellwidth 0x01 := by
  unfold ax93304_hbar
  simp [hm]

theorem pageZeroEnv_keeps_mode :
    (∀ (q : PrivateData) (a b c d e f g : Int),
      (pageZeroEnv.lib_vbar_static q a b c d e f g).ccmode = q.ccmode) ∧
    (∀ (q : PrivateData) (a b c d e f g : Int),
      (pageZeroEnv.lib_hbar_static q a b c d e f g).ccmode = q.ccmode) := by
  constructor <;> intro q a b c d e f g <;>
    simp only [pageZeroEnv, ax93304_chr] <;> exact (poke_fields _ _ _).2.2.2.2.1

/-- C8: in `vbar` mode a call of `ax93304_hbar`, whatever its arguments, returns the
driver exactly as it was: nothing is sent, no cell and no field changes, the mode stays
`vbar`.  In `hbar` mode the same holds for `ax93304_vbar`. -/
theorem other_bar_mode_is_rejected (E : Env) (p q : PrivateData)
    (x y len promille options : Int)
    (hp : p.ccmode = CGmode.vbar) (hq : q.ccmode = CGmode.hbar) :
    (ax93304_hbar E p x y len promille options = p ∧
      sent p (ax93304_hbar E p x y len promille options) = [] ∧
      (ax93304_hbar E p x y len promille options).framebuf = p.framebuf ∧
      (ax93304_hbar E p x y len promille options).ccmode = CGmode.vbar) ∧
    (ax93304_vbar E q x y len promille options = q ∧
      sent q (ax93304_vbar E q x y len promille options) = [] ∧
      (ax93304_vbar E q x y len promille options).framebuf = q.framebuf ∧
      (ax93304_vbar E q x y len promille options).ccmode = CGmode.hbar) := by
  have h1 : ax93304_hbar E p x y len promille options = p := by
    unfold ax93304_hbar; simp [hp]
  have h2 : ax93304_vbar E q x y len promille options = q := by
    unfold ax93304_vbar; simp [hq]
  rw [h1, h2]
  simp [sent, hp, hq]

/-- C8 at a concrete input: the initial screen switched to `vbar`, respectively `hbar`. -/
theorem other_bar_mode_is_rejected_witness :
    ax93304_hbar pageZeroEnv { initial with ccmode := CGmode.vbar } 1 1 16 500 0
      = { initial with ccmode := CGmode.vbar } ∧
    ax93304_vbar pageZeroEnv { initial with ccmode := CGmode.hbar } 1 2 2 500 0
      = { initial with ccmode := CGmode.hbar } :=
  ⟨(other_bar_mode_is_rejected pageZeroEnv { initial with ccmode := CGmode.vbar }
      { initial with ccmode := CGmode.hbar } 1 1 16 500 0 rfl rfl).1.1,
   (other_bar_mode_is_rejected pageZeroEnv { initial with ccmode := CGmode.vbar }
      { initial with ccmode := CGmode.hbar } 1 2 2 500 0 rfl rfl).2.1⟩

/-- C9: from `standard` mode, with shared primitives that leave the mode alone, the first
`ax93304_vbar` call puts the 7 glyph definitions (slots 1-7, table `bar_up`) on the serial
line, sets the mode to `vbar` and hands over to the primitive; the second call, whatever its
arguments, is the bare call of the primitive on the state the first one left: the driver adds
no byte of its own, and the mode is still `vbar`.  The same holds for two `ax93304_hbar`
calls with the 4 glyphs of `bar_right`. -/
theorem bar_glyphs_programmed_once (E : Env) (p : PrivateData)
    (x y len promille options x' y' len' promille' options' : Int)
    (hI : Initialised p) (hs : p.ccmode = CGmode.standard)
    (hv : ∀ (q : PrivateData) (a b c d e f g : Int),
      (E.lib_vbar_static q a b c d e f g).ccmode = q.ccmode)
    (hh : ∀ (q : PrivateData) (a b c d e f g : Int),
      (E.lib_hbar_static q a b c d e f g).ccmode = q.ccmode) :
    (ax93304_vbar E p x y len promille options
        = E.lib_vbar_static
            { p with ccmode := CGmode.vbar,
                     tx := p.tx ++ glyph_sequences E (List.zip [1, 2, 3, 4, 5, 6, 7] bar_up) }
            x y len promille options 8 0x01 ∧
      (ax93304_vbar E p x y len promille options).ccmode = CGmode.vbar ∧
      ax93304_vbar E (ax93304_vbar E p x y len promille options) x' y' len' promille' options'
        = E.lib_vbar_static (ax93304_vbar E p x y len promille options)
            x' y' len' promille' options'
            (ax93304_vbar E p x y len promille options).cellheight 0x01 ∧
      (ax93304_vbar E (ax93304_vbar E p x y len promille options)
          x' y' len' promille' options').ccmode = CGmode.vbar) ∧
    (ax93304_hbar E p x y len promille options
        = E.lib_hbar_static
            { p with ccmode := CGmode.hbar,
                     tx := p.tx ++ glyph_sequences E (List.zip [1, 2, 3, 4] bar_right) }
            x y len promille options 5 0x01 ∧
      (ax93304_hbar E p x y len promille options).ccmode = CGmode.hbar ∧
      ax93304_hbar E (ax93304_hbar E p x y len promille options) x' y' len' promille' options'
        = E.lib_hbar_static (ax93304_hbar E p x y len promille options)
            x' y' len' promille' options'
            (ax93304_hbar E p x y len promille options).cellwidth 0x01 ∧
      (ax93304_hbar E (ax93304_hbar E p x y len promille options)
          x' y' len' promille' options').ccmode = CGmode.hbar) := by
  have hv1 : (ax93304_vbar E p x y len promille options).ccmode = CGmode.vbar := by
    rw [vbar_standard_eq E p x y len promille options hI hs, hv]
  have hh1 : (ax93304_hbar E p x y len promille options).ccmode = CGmode.hbar := by
    rw [hbar_standard_eq E p x y len promille options hI hs, hh]
  have hv2 := vbar_again_eq E (ax93304_vbar E p x y len promille options)
    x' y' len' promille' options' hv1
  have hh2 := hbar_again_eq E (ax93304_hbar E p x y len promille options)
    x' y' len' promille' options' hh1
  refine ⟨⟨vbar_standard_eq E p x y len promille options hI hs, hv1, hv2, ?_⟩,
    ⟨hbar_standard_eq E p x y len promille options hI hs, hh1, hh2, ?_⟩⟩
  · rw [hv2, hv, hv1]
  · rw [hh2, hh, hh1]

/-- C9 at a concrete input: two vertical-bar calls on the initial screen.  The second call
sends nothing at all here (the sample primitive only writes a cell) and leaves `vbar`. -/
theorem bar_glyphs_programmed_once_witness :
    Initialised initial ∧ initial.ccmode = CGmode.standard ∧
    (ax93304_vbar pageZeroEnv (ax93304_vbar pageZeroEnv initial 1 2 2 500 0)
        1 2 2 750 0).ccmode = CGmode.vbar ∧
    (ax93304_hbar pageZeroEnv (ax93304_hbar pageZeroEnv initial 1 1 16 500 0)
        1 1 16 750 0).ccmode = CGmode.hbar :=
  ⟨by decide, rfl,
   (bar_glyphs_programmed_once pageZeroEnv initial 1 2 2 500 0 1 2 2 750 0 (by decide) rfl
      pageZeroEnv_keeps_mode.1 pageZeroEnv_keeps_mode.2).1.2.2.2,
   (bar_glyphs_programmed_once pageZeroEnv initial 1 1 16 500 0 1 1 16 750 0 (by decide) rfl
      pageZeroEnv_keeps_mode.1 pageZeroEnv_keeps_mode.2).2.2.2.2⟩

/-- C10: in `standard` mode on an initialised driver, `ax93304_vbar` sets the mode to
`vbar`, calls `ax93304_set_char` exactly 7 times, for slots 1, 2, ..., 7 in that order with
the rows of `bar_up`, and only then calls the shared vertical-bar primitive, with cell
height 8 and glyph offset `0x01`; the bitmap of slot `i` has `0x1F` in its bottom `i` rows
and `0x00` in the `8 - i` rows above. -/
theorem vbar_from_standard_defines_seven_glyphs (E : Env) (p : PrivateData)
    (x y len promille options : Int)
    (hI : Initialised p) (hs : p.ccmode = CGmode.standard) :
    ax93304_vbar E p x y len promille options
      = E.lib_vbar_static
          ((List.zip [1, 2, 3, 4, 5, 6, 7] bar_up).foldl
            (fun q sd => ax93304_set_char E q sd.1 (some sd.2))
            { p with ccmode := CGmode.vbar })
          x y len promille options 8 0x01 ∧
    (List.zip [1, 2, 3, 4, 5, 6, 7] bar_up).foldl
        (fun q sd => ax93304_set_char E q sd.1 (some sd.2)) { p with ccmode := CGmode.vbar }
      = { p with ccmode := CGmode.vbar,
                 tx := p.tx ++ glyph_sequences E (List.zip [1, 2, 3, 4, 5, 6, 7] bar_up) } ∧
    (List.zip [1, 2, 3, 4, 5, 6, 7] bar_up).length = 7 ∧
    (∀ i : Nat, 1 ≤ i → i ≤ 7 →
      (List.zip [1, 2, 3, 4, 5, 6, 7] bar_up).get? (i - 1)
          = some ((i : Int), bar_up.getD (i - 1) []) ∧
      (bar_up.getD (i - 1) []).length = 8 ∧
      ∀ r : Nat, r < 8 →
        (bar_up.getD (i - 1) []).getD r 0 = if 8 - i ≤ r then 0x1F else 0x00) := by
  refine ⟨?_, vbar_glyphs_eq E p hI, rfl, ?_⟩
  · rw [vbar_glyphs_eq E p hI]
    exact vbar_standard_eq E p x y len promille options hI hs
  · intro i h1 h7
    interval_cases i <;> decide

/-- C10 at a concrete input: `ax93304_vbar(1, 2, 2, 500, 0)` on the initial screen, page
zero unmapped: 7 sequences of 11 bytes follow the 4 bytes of `init`, mode `vbar`. -/
theorem vbar_from_standard_defines_seven_glyphs_witness :
    Initialised initial ∧ initial.ccmode = CGmode.standard ∧
    ax93304_vbar pageZeroEnv initial 1 2 2 500 0
      = pageZeroEnv.lib_vbar_static
          ((List.zip [1, 2, 3, 4, 5, 6, 7] bar_up).foldl
            (fun q sd => ax93304_set_char pageZeroEnv q sd.1 (some sd.2))
            { initial with ccmode := CGmode.vbar })
          1 2 2 500 0 8 0x01 :=
  ⟨by decide, rfl,
   (vbar_from_standard_defines_seven_glyphs pageZeroEnv initial 1 2 2 500 0
      (by decide) rfl).1⟩

/-! ## Horizontal bar glyphs, geometry accessors, slot range -/

/-- C11: in `standard` mode on an initialised driver, `ax93304_hbar` sets the mode to
`hbar`, calls `ax93304_set_char` exactly 4 times, for slots 1, 2, 3, 4 in that order with
the rows of `bar_right`, and only then calls the shared horizontal-bar primitive, with cell
width 5 and glyph offset `0x01`; each of the 8 rows of the bitmap of slot `i` is `0x1F` with
its low `5 - i` bits cleared, that is, exactly the `i` leftmost of the 5 columns are set. -/
theorem hbar_from_standard_defines_four_glyphs (E : Env) (p : PrivateData)
    (x y len promille options : Int)
    (hI : Initialised p) (hs : p.ccmode = CGmode.standard) :
    ax93304_hbar E p x y len promille options
      = E.lib_hbar_static
          ((List.zip [1, 2, 3, 4] bar_right).foldl
            (fun q sd => ax93304_set_char E q sd.1 (some sd.2))
            { p with ccmode := CGmode.hbar })
          x y len promille options 5 0x01 ∧
    (List.zip [1, 2, 3, 4] bar_right).foldl
        (fun q sd => ax93304_set_char E q sd.1 (some sd.2)) { p with ccmode := CGmode.hbar }
      = { p with ccmode := CGmode.hbar,
                 tx := p.tx ++ glyph_sequences E (List.zip [1, 2, 3, 4] bar_right) } ∧
    (List.zip [1, 2, 3, 4] bar_right).length = 4 ∧
    (∀ i : Nat, 1 ≤ i → i ≤ 4 →
      (List.zip [1, 2, 3, 4] bar_right).get? (i - 1)
          = some ((i : Int), bar_right.getD (i - 1) []) ∧
      (bar_right.getD (i - 1) []).length = 8 ∧
      ∀ r : Nat, r < 8 →
        (bar_right.getD (i - 1) []).getD r 0 = (0x1F >>> (5 - i)) <<< (5 - i) ∧
        ∀ col : Nat, col < 5 →
          Nat.testBit ((bar_right.getD (i - 1) []).getD r 0) (4 - col) = decide (col < i)) := by
  refine ⟨?_, hbar_glyphs_eq E p hI, rfl, ?_⟩
  · rw [hbar_glyphs_eq E p hI]
    exact hbar_standard_eq E p x y len promille options hI hs
  · intro i h1 h4
    interval_cases i <;> decide

/-- C11 at a concrete input: `ax93304_hbar(1, 1, 16, 500, 0)` on the initial screen. -/
theorem hbar_from_standard_defines_four_glyphs_witness :
    Initialised initial ∧ initial.ccmode = CGmode.standard ∧
    ax93304_hbar pageZeroEnv initial 1 1 16 500 0
      = pageZeroEnv.lib_hbar_static
          ((List.zip [1, 2, 3, 4] bar_right).foldl
            (fun q sd => ax93304_set_char pageZeroEnv q sd.1 (some sd.2))
            { initial with ccmode := CGmode.hbar })
          1 1 16 500 0 5 0x01 :=
  ⟨by decide, rfl,
   (hbar_from_standard_defines_four_glyphs pageZeroEnv initial 1 1 16 500 0
      (by decide) rfl).1⟩

/-- C12: on an initialised driver `ax93304_height` returns the cell height 8 (not the 2
rows), `ax93304_cellwidth` returns the width 16 (not the 5 pixel columns), while
`ax93304_width` returns 16 and `ax93304_cellheight` returns 8. -/
theorem accessors_are_cross_wired (p : PrivateData) (hI : Initialised p) :
    ax93304_height p = p.cellheight ∧ ax93304_height p = 8 ∧ ax93304_height p ≠ p.height ∧
    ax93304_cellwidth p = p.width ∧ ax93304_cellwidth p = 16 ∧
    ax93304_cellwidth p ≠ p.cellwidth ∧
    ax93304_width p = 16 ∧ ax93304_cellheight p = 8 := by
  obtain ⟨hw, hh, hcw, hch, -⟩ := hI
  simp [ax93304_height, ax93304_cellwidth, ax93304_width, ax93304_cellheight, hw, hh, hcw, hch]

/-- C12 at a concrete input: the driver as a successful `ax93304_init` leaves it. -/
theorem accessors_are_cross_wired_witness :
    (ax93304_init goodWorld).view = some initial ∧ Initialised initial ∧
    ax93304_height initial = 8 ∧ ax93304_cellwidth initial = 16 ∧
    ax93304_width initial = 16 ∧ ax93304_cellheight initial = 8 :=
  ⟨by decide, by decide,
   (accessors_are_cross_wired initial (by decide)).2.1,
   (accessors_are_cross_wired initial (by decide)).2.2.2.2.1,
   (accessors_are_cross_wired initial (by decide)).2.2.2.2.2.2.1,
   (accessors_are_cross_wired initial (by decide)).2.2.2.2.2.2.2⟩

/-- C20: for a slot `n < 0` or `n >= 8`, whatever the bitmap pointer, and for a null bitmap
whatever the slot, `ax93304_set_char` returns the driver exactly as it was: no byte is sent
(not even the leading `FE`), frame buffer and mode are unchanged. -/
theorem set_char_out_of_range_is_noop (E : Env) (p : PrivateData) (n m : Int)
    (dat : Option (List Nat)) (hn : n < 0 ∨ 8 ≤ n) :
    ax93304_set_char E p n dat = p ∧ sent p (ax93304_set_char E p n dat) = [] ∧
    ax93304_set_char E p m none = p ∧ sent p (ax93304_set_char E p m none) = [] := by
  have h1 : ax93304_set_char E p n dat = p := by
    unfold ax93304_set_char
    have : n < 0 ∨ n ≥ NUM_CCs := by simp only [NUM_CCs]; omega
    simp [this]
  have h2 : ax93304_set_char E p m none = p := by
    unfold ax93304_set_char
    split <;> rfl
  rw [h1, h2]
  simp [sent]

/-- C20 at concrete inputs: slots 8 and -1 with a bitmap, slot 3 with a null bitmap. -/
theorem set_char_out_of_range_is_noop_witness :
    ax93304_set_char pageZeroEnv initial 8 (some arrow_up) = initial ∧
    ax93304_set_char pageZeroEnv initial (-1) (some arrow_up) = initial ∧
    ax93304_set_char pageZeroEnv initial 3 none = initial :=
  ⟨(set_char_out_of_range_is_noop pageZeroEnv initial 8 3 (some arrow_up)
      (Or.inr (by decide))).1,
   (set_char_out_of_range_is_noop pageZeroEnv initial (-1) 3 (some arrow_up)
      (Or.inl (by decide))).1,
   (set_char_out_of_range_is_noop pageZeroEnv initial 8 3 (some arrow_up)
      (Or.inr (by decide))).2.2.1⟩

/-! ## Icons -/

/-- A glyph definition followed by the store of a glyph code below `0x80`. -/
theorem set_then_chr_eq (E : Env) (p : PrivateData) (k : Int) (d : List Nat)
    (x y : Int) (c : Nat)
    (hI : Initialised p) (hk0 : 0 ≤ k) (hk8 : k < 8)
    (hx1 : 1 ≤ x) (hx : x ≤ 16) (hy1 : 1 ≤ y) (hy : y ≤ 2) (hc : c < 0x80) :
    ax93304_chr (ax93304_set_char E p k (some d)) x y c
      = { p with
          tx := p.tx ++ glyph_sequence E k d,
          framebuf := List.set p.framebuf (Int.toNat ((y - 1) * 16 + (x - 1))) c } := by
  rw [set_char_eq E p k d hI hk0 hk8]
  have hI' : Initialised { p with tx := p.tx ++ glyph_sequence E k d } := hI
  rw [chr_eq _ x y c hI' hx1 hx hy1 hy (by omega)]
  have hno : ¬ (0x80 ≤ c ∧ c ≤ 0x97) := by omega
  rw [if_neg hno]

/-- Two different positions of the list of icon codes hold different codes. -/
theorem distinct_ne (K : Icons) (hK : K.Distinct) (i j : Nat) (hi : i < 10) (hj : j < 10)
    (hij : i ≠ j) :
    [K.ICON_BLOCK_FILLED, K.ICON_HEART_OPEN, K.ICON_HEART_FILLED, K.ICON_ARROW_UP,
     K.ICON_ARROW_DOWN, K.ICON_ARROW_LEFT, K.ICON_ARROW_RIGHT, K.ICON_CHECKBOX_OFF,
     K.ICON_CHECKBOX_ON, K.ICON_CHECKBOX_GRAY].getD i 0
    ≠ [K.ICON_BLOCK_FILLED, K.ICON_HEART_OPEN, K.ICON_HEART_FILLED, K.ICON_ARROW_UP,
     K.ICON_ARROW_DOWN, K.ICON_ARROW_LEFT, K.ICON_ARROW_RIGHT, K.ICON_CHECKBOX_OFF,
     K.ICON_CHECKBOX_ON, K.ICON_CHECKBOX_GRAY].getD j 0 := by
  unfold Icons.Distinct at hK
  intro h
  have hi' : i < [K.ICON_BLOCK_FILLED, K.ICON_HEART_OPEN, K.ICON_HEART_FILLED,
     K.ICON_ARROW_UP, K.ICON_ARROW_DOWN, K.ICON_ARROW_LEFT, K.ICON_ARROW_RIGHT,
     K.ICON_CHECKBOX_OFF, K.ICON_CHECKBOX_ON, K.ICON_CHECKBOX_GRAY].length := hi
  have hj' : j < [K.ICON_BLOCK_FILLED, K.ICON_HEART_OPEN, K.ICON_HEART_FILLED,
     K.ICON_ARROW_UP, K.ICON_ARROW_DOWN, K.ICON_ARROW_LEFT, K.ICON_ARROW_RIGHT,
     K.ICON_CHECKBOX_OFF, K.ICON_CHECKBOX_ON, K.ICON_CHECKBOX_GRAY].length := hj
  rw [List.getD_eq_getElem _ _ hi', List.getD_eq_getElem _ _ hj'] at h
  have := (List.Nodup.getElem_inj_iff hK).mp h
  exact hij this


theorem icon_arrow_left (K : Icons) (E : Env) (p : PrivateData) (x y : Int) :
    ax93304_icon K E p x y K.ICON_ARROW_LEFT = (ax93304_chr p x y 0x1B, 0) := by
  unfold ax93304_icon
  rw [if_pos rfl]

theorem icon_arrow_right (K : Icons) (E : Env) (p : PrivateData) (x y : Int)
    (hK : K.Distinct) :
    ax93304_icon K E p x y K.ICON_ARROW_RIGHT = (ax93304_chr p x y 0x1A, 0) := by
  have h1 : ¬ K.ICON_ARROW_RIGHT = K.ICON_ARROW_LEFT :=
    distinct_ne K hK 6 5 (by decide) (by decide) (by decide)
  unfold ax93304_icon
  rw [if_neg h1, if_pos rfl]

theorem icon_heart_filled (K : Icons) (E : Env) (p : PrivateData) (x y : Int)
    (hK : K.Distinct) :
    ax93304_icon K E p x y K.ICON_HEART_FILLED
      = (if p.ccmode ≠ CGmode.bignum ∧ p.ccmode ≠ CGmode.vbar then
          (ax93304_chr (ax93304_set_char E p 7 (some heart_filled)) x y 7, 0)
         else (p, -1)) := by
  have h1 : ¬ K.ICON_HEART_FILLED = K.ICON_ARROW_LEFT :=
    distinct_ne K hK 2 5 (by decide) (by decide) (by decide)
  have h2 : ¬ K.ICON_HEART_FILLED = K.ICON_ARROW_RIGHT :=
    distinct_ne K hK 2 6 (by decide) (by decide) (by decide)
  unfold ax93304_icon
  rw [if_neg h1, if_neg h2, if_pos (Or.inl rfl), if_pos rfl]

theorem icon_heart_open (K : Icons) (E : Env) (p : PrivateData) (x y : Int)
    (hK : K.Distinct) :
    ax93304_icon K E p x y K.ICON_HEART_OPEN
      = (if p.ccmode ≠ CGmode.bignum ∧ p.ccmode ≠ CGmode.vbar then
          (ax93304_chr (ax93304_set_char E p 7 (some heart_open)) x y 7, 0)
         else (p, -1)) := by
  have h1 : ¬ K.ICON_HEART_OPEN = K.ICON_ARROW_LEFT :=
    distinct_ne K hK 1 5 (by decide) (by decide) (by decide)
  have h2 : ¬ K.ICON_HEART_OPEN = K.ICON_ARROW_RIGHT :=
    distinct_ne K hK 1 6 (by decide) (by decide) (by decide)
  have h3 : ¬ K.ICON_HEART_OPEN = K.ICON_HEART_FILLED :=
    distinct_ne K hK 1 2 (by decide) (by decide) (by decide)
  unfold ax93304_icon
  rw [if_neg h1, if_neg h2, if_pos (Or.inr rfl), if_neg h3, if_pos rfl]

theorem icon_arrow_up (K : Icons) (E : Env) (p : PrivateData) (x y : Int)
    (hK : K.Distinct) :
    ax93304_icon K E p x y K.ICON_ARROW_UP
      = (ax93304_chr (ax93304_set_char E p 1 (some arrow_up)) x y 1, 0) := by
  have h1 : ¬ K.ICON_ARROW_UP = K.ICON_ARROW_LEFT :=
    distinct_ne K hK 3 5 (by decide) (by decide) (by decide)
  have h2 : ¬ K.ICON_ARROW_UP = K.ICON_ARROW_RIGHT :=
    distinct_ne K hK 3 6 (by decide) (by decide) (by decide)
  have h3 : ¬ (K.ICON_ARROW_UP = K.ICON_HEART_FILLED ∨ K.ICON_ARROW_UP = K.ICON_HEART_OPEN) :=
    not_or.mpr ⟨distinct_ne K hK 3 2 (by decide) (by decide) (by decide),
      distinct_ne K hK 3 1 (by decide) (by decide) (by decide)⟩
  unfold ax93304_icon
  rw [if_neg h1, if_neg h2, if_neg h3]
  unfold ax93304_icon_custom
  rw [if_pos rfl]

theorem icon_arrow_down (K : Icons) (E : Env) (p : PrivateData) (x y : Int)
    (hK : K.Distinct) :
    ax93304_icon K E p x y K.ICON_ARROW_DOWN
      = (ax93304_chr (ax93304_set_char E p 2 (some arrow_down)) x y 2, 0) := by
  have h1 : ¬ K.ICON_ARROW_DOWN = K.ICON_ARROW_LEFT :=
    distinct_ne K hK 4 5 (by decide) (by decide) (by decide)
  have h2 : ¬ K.ICON_ARROW_DOWN = K.ICON_ARROW_RIGHT :=
    distinct_ne K hK 4 6 (by decide) (by decide) (by decide)
  have h3 : ¬ (K.ICON_ARROW_DOWN = K.ICON_HEART_FILLED ∨ K.ICON_ARROW_DOWN = K.ICON_HEART_OPEN) :=
    not_or.mpr ⟨distinct_ne K hK 4 2 (by decide) (by decide) (by decide),
      distinct_ne K hK 4 1 (by decide) (by decide) (by decide)⟩
  have k0 : ¬ K.ICON_ARROW_DOWN = K.ICON_ARROW_UP :=
    distinct_ne K hK 4 3 (by decide) (by decide) (by decide)
  unfold ax93304_icon
  rw [if_neg h1, if_neg h2, if_neg h3]
  unfold ax93304_icon_custom
  rw [if_neg k0, if_pos rfl]

theorem icon_checkbox_off (K : Icons) (E : Env) (p : PrivateData) (x y : Int)
    (hK : K.Distinct) :
    ax93304_icon K E p x y K.ICON_CHECKBOX_OFF
      = (ax93304_chr (ax93304_set_char E p 3 (some checkbox_off)) x y 3, 0) := by
  have h1 : ¬ K.ICON_CHECKBOX_OFF = K.ICON_ARROW_LEFT :=
    distinct_ne K hK 7 5 (by decide) (by decide) (by decide)
  have h2 : ¬ K.ICON_CHECKBOX_OFF = K.ICON_ARROW_RIGHT :=
    distinct_ne K hK 7 6 (by decide) (by decide) (by decide)
  have h3 : ¬ (K.ICON_CHECKBOX_OFF = K.ICON_HEART_FILLED ∨ K.ICON_CHECKBOX_OFF = K.ICON_HEART_OPEN) :=
    not_or.mpr ⟨distinct_ne K hK 7 2 (by decide) (by decide) (by decide),
      distinct_ne K hK 7 1 (by decide) (by decide) (by decide)⟩
  have k0 : ¬ K.ICON_CHECKBOX_OFF = K.ICON_ARROW_UP :=
    distinct_ne K hK 7 3 (by decide) (by decide) (by decide)
  have k1 : ¬ K.ICON_CHECKBOX_OFF = K.ICON_ARROW_DOWN :=
    distinct_ne K hK 7 4 (by decide) (by decide) (by decide)
  unfold ax93304_icon
  rw [if_neg h1, if_neg h2, if_neg h3]
  unfold ax93304_icon_custom
  rw [if_neg k0, if_neg k1, if_pos rfl]

theorem icon_checkbox_on (K : Icons) (E : Env) (p : PrivateData) (x y : Int)
    (hK : K.Distinct) :
    ax93304_icon K E p x y K.ICON_CHECKBOX_ON
      = (ax93304_chr (ax93304_set_char E p 4 (some checkbox_on)) x y 4, 0) := by
  have h1 : ¬ K.ICON_CHECKBOX_ON = K.ICON_ARROW_LEFT :=
    distinct_ne K hK 8 5 (by decide) (by decide) (by decide)
  have h2 : ¬ K.ICON_CHECKBOX_ON = K.ICON_ARROW_RIGHT :=
    distinct_ne K hK 8 6 (by decide) (by decide) (by decide)
  have h3 : ¬ (K.ICON_CHECKBOX_ON = K.ICON_HEART_FILLED ∨ K.ICON_CHECKBOX_ON = K.ICON_HEART_OPEN) :=
    not_or.mpr ⟨distinct_ne K hK 8 2 (by decide) (by decide) (by decide),
      distinct_ne K hK 8 1 (by decide) (by decide) (by decide)⟩
  have k0 : ¬ K.ICON_CHECKBOX_ON = K.ICON_ARROW_UP :=
    distinct_ne K hK 8 3 (by decide) (by decide) (by decide)
  have k1 : ¬ K.ICON_CHECKBOX_ON = K.ICON_ARROW_DOWN :=
    distinct_ne K hK 8 4 (by decide) (by decide) (by decide)
  have k2 : ¬ K.ICON_CHECKBOX_ON = K.ICON_CHECKBOX_OFF :=
    distinct_ne K hK 8 7 (by decide) (by decide) (by decide)
  unfold ax93304_icon
  rw [if_neg h1, if_neg h2, if_neg h3]
  unfold ax93304_icon_custom
  rw [if_neg k0, if_neg k1, if_neg k2, if_pos rfl]

theorem icon_checkbox_gray (K : Icons) (E : Env) (p : PrivateData) (x y : Int)
    (hK : K.Distinct) :
    ax93304_icon K E p x y K.ICON_CHECKBOX_GRAY
      = (ax93304_chr (ax93304_set_char E p 5 (some checkbox_gray)) x y 5, 0) := by
  have h1 : ¬ K.ICON_CHECKBOX_GRAY = K.ICON_ARROW_LEFT :=
    distinct_ne K hK 9 5 (by decide) (by decide) (by decide)
  have h2 : ¬ K.ICON_CHECKBOX_GRAY = K.ICON_ARROW_RIGHT :=
    distinct_ne K hK 9 6 (by decide) (by decide) (by decide)
  have h3 : ¬ (K.ICON_CHECKBOX_GRAY = K.ICON_HEART_FILLED ∨ K.ICON_CHECKBOX_GRAY = K.ICON_HEART_OPEN) :=
    not_or.mpr ⟨distinct_ne K hK 9 2 (by decide) (by decide) (by decide),
      distinct_ne K hK 9 1 (by decide) (by decide) (by decide)⟩
  have k0 : ¬ K.ICON_CHECKBOX_GRAY = K.ICON_ARROW_UP :=
    distinct_ne K hK 9 3 (by decide) (by decide) (by decide)
  have k1 : ¬ K.ICON_CHECKBOX_GRAY = K.ICON_ARROW_DOWN :=
    distinct_ne K hK 9 4 (by decide) (by decide) (by decide)
  have k2 : ¬ K.ICON_CHECKBOX_GRAY = K.ICON_CHECKBOX_OFF :=
    distinct_ne K hK 9 7 (by decide) (by decide) (by decide)
  have k3 : ¬ K.ICON_CHECKBOX_GRAY = K.ICON_CHECKBOX_ON :=
    distinct_ne K hK 9 8 (by decide) (by decide) (by decide)
  unfold ax93304_icon
  rw [if_neg h1, if_neg h2, if_neg h3]
  unfold ax93304_icon_custom
  rw [if_neg k0, if_neg k1, if_neg k2, if_neg k3, if_pos rfl]

theorem icon_other (K : Icons) (E : Env) (p : PrivateData) (x y icon : Int)
    (h1 : icon ≠ K.ICON_ARROW_LEFT) (h2 : icon ≠ K.ICON_ARROW_RIGHT)
    (h3 : icon ≠ K.ICON_HEART_FILLED) (h4 : icon ≠ K.ICON_HEART_OPEN)
    (h5 : icon ≠ K.ICON_ARROW_UP) (h6 : icon ≠ K.ICON_ARROW_DOWN)
    (h7 : icon ≠ K.ICON_CHECKBOX_OFF) (h8 : icon ≠ K.ICON_CHECKBOX_ON)
    (h9 : icon ≠ K.ICON_CHECKBOX_GRAY) :
    ax93304_icon K E p x y icon = (p, -1) := by
  unfold ax93304_icon
  rw [if_neg h1, if_neg h2, if_neg (not_or.mpr ⟨h3, h4⟩)]
  unfold ax93304_icon_custom
  rw [if_neg h5, if_neg h6, if_neg h7, if_neg h8, if_neg h9]

/-- C13: for a heart icon (open or filled) at an in-range `(x,y)` on an initialised driver,
`ax93304_icon` defines slot 7 with the heart bitmap, stores glyph code 7 at `(x,y)` and
returns 0 when the mode is neither `vbar` nor `bignum`; when the mode is `vbar` or `bignum`
it returns -1 and leaves the driver exactly as it was (nothing sent, no cell changed). -/
theorem heart_icon_gated_by_mode (K : Icons) (E : Env) (p : PrivateData) (x y icon : Int)
    (hK : K.Distinct) (hI : Initialised p)
    (hx1 : 1 ≤ x) (hx : x ≤ 16) (hy1 : 1 ≤ y) (hy : y ≤ 2)
    (hicon : icon = K.ICON_HEART_OPEN ∨ icon = K.ICON_HEART_FILLED) :
    (p.ccmode ≠ CGmode.vbar → p.ccmode ≠ CGmode.bignum →
      ax93304_icon K E p x y icon
        = (ax93304_chr (ax93304_set_char E p 7
            (some (if icon = K.ICON_HEART_FILLED then heart_filled else heart_open))) x y 7,
           0) ∧
      ax93304_icon K E p x y icon
        = ({ p with
              tx := p.tx ++ glyph_sequence E 7
                (if icon = K.ICON_HEART_FILLED then heart_filled else heart_open),
              framebuf := List.set p.framebuf (Int.toNat ((y - 1) * 16 + (x - 1))) 7 }, 0)) ∧
    (p.ccmode = CGmode.vbar ∨ p.ccmode = CGmode.bignum →
      ax93304_icon K E p x y icon = (p, -1) ∧
      sent p (ax93304_icon K E p x y icon).1 = []) := by
  have hne : ¬ K.ICON_HEART_OPEN = K.ICON_HEART_FILLED :=
    distinct_ne K hK 1 2 (by decide) (by decide) (by decide)
  constructor
  · intro hv hb
    have hm : p.ccmode ≠ CGmode.bignum ∧ p.ccmode ≠ CGmode.vbar := ⟨hb, hv⟩
    rcases hicon with h | h
    · subst h
      rw [icon_heart_open K E p x y hK, if_pos hm, if_neg hne]
      exact ⟨rfl, by rw [set_then_chr_eq E p 7 heart_open x y 7 hI (by decide) (by decide)
        hx1 hx hy1 hy (by decide)]⟩
    · subst h
      rw [icon_heart_filled K E p x y hK, if_pos hm, if_pos rfl]
      exact ⟨rfl, by rw [set_then_chr_eq E p 7 heart_filled x y 7 hI (by decide) (by decide)
        hx1 hx hy1 hy (by decide)]⟩
  · intro hmode
    have hm : ¬ (p.ccmode ≠ CGmode.bignum ∧ p.ccmode ≠ CGmode.vbar) := by
      rcases hmode with h | h <;> simp [h]
    have hres : ax93304_icon K E p x y icon = (p, -1) := by
      rcases hicon with h | h
      · subst h
        rw [icon_heart_open K E p x y hK, if_neg hm]
      · subst h
        rw [icon_heart_filled K E p x y hK, if_neg hm]
    rw [hres]
    exact ⟨rfl, by simp [sent]⟩

/-- C13 at concrete inputs: the open heart at (2,1) in `hbar` mode is drawn with glyph 7,
and in `vbar` mode it is refused. -/
theorem heart_icon_gated_by_mode_witness :
    lcdIcons.Distinct ∧
    Initialised { initial with ccmode := CGmode.hbar } ∧
    (ax93304_icon lcdIcons pageZeroEnv { initial with ccmode := CGmode.hbar } 2 1
        lcdIcons.ICON_HEART_OPEN).2 = 0 ∧
    ax93304_icon lcdIcons pageZeroEnv { initial with ccmode := CGmode.vbar } 2 1
        lcdIcons.ICON_HEART_OPEN = ({ initial with ccmode := CGmode.vbar }, -1) :=
  ⟨by decide, by decide,
   congrArg Prod.snd ((heart_icon_gated_by_mode lcdIcons pageZeroEnv
      { initial with ccmode := CGmode.hbar } 2 1 lcdIcons.ICON_HEART_OPEN (by decide)
      (by decide) (by decide) (by decide) (by decide) (by decide) (Or.inl rfl)).1
      (by decide) (by decide)).1,
   ((heart_icon_gated_by_mode lcdIcons pageZeroEnv
      { initial with ccmode := CGmode.vbar } 2 1 lcdIcons.ICON_HEART_OPEN (by decide)
      (by decide) (by decide) (by decide) (by decide) (by decide) (Or.inl rfl)).2
      (Or.inl rfl)).1⟩

/-- C14: with pairwise different icon codes, `ax93304_icon` returns 0 exactly when the icon
is arrow-left, arrow-right, arrow-up, arrow-down, checkbox-off, checkbox-on or
checkbox-gray, or is a heart icon while the mode is neither `vbar` nor `bignum`; whenever
it does not return 0 it returns -1 and leaves the driver exactly as it was, and that is
the case for the filled-block icon. -/
theorem icon_result_characterised (K : Icons) (E : Env) (p : PrivateData) (x y icon : Int)
    (hK : K.Distinct) :
    ((ax93304_icon K E p x y icon).2 = 0 ↔
      (icon = K.ICON_ARROW_LEFT ∨ icon = K.ICON_ARROW_RIGHT ∨ icon = K.ICON_ARROW_UP ∨
       icon = K.ICON_ARROW_DOWN ∨ icon = K.ICON_CHECKBOX_OFF ∨ icon = K.ICON_CHECKBOX_ON ∨
       icon = K.ICON_CHECKBOX_GRAY ∨
       ((icon = K.ICON_HEART_OPEN ∨ icon = K.ICON_HEART_FILLED) ∧
         p.ccmode ≠ CGmode.vbar ∧ p.ccmode ≠ CGmode.bignum))) ∧
    ((ax93304_icon K E p x y icon).2 ≠ 0 → ax93304_icon K E p x y icon = (p, -1)) ∧
    ax93304_icon K E p x y K.ICON_BLOCK_FILLED = (p, -1) := by
  have hbf : ax93304_icon K E p x y K.ICON_BLOCK_FILLED = (p, -1) :=
    icon_other K E p x y K.ICON_BLOCK_FILLED
      (distinct_ne K hK 0 5 (by decide) (by decide) (by decide))
      (distinct_ne K hK 0 6 (by decide) (by decide) (by decide))
      (distinct_ne K hK 0 2 (by decide) (by decide) (by decide))
      (distinct_ne K hK 0 1 (by decide) (by decide) (by decide))
      (distinct_ne K hK 0 3 (by decide) (by decide) (by decide))
      (distinct_ne K hK 0 4 (by decide) (by decide) (by decide))
      (distinct_ne K hK 0 7 (by decide) (by decide) (by decide))
      (distinct_ne K hK 0 8 (by decide) (by decide) (by decide))
      (distinct_ne K hK 0 9 (by decide) (by decide) (by decide))
  suffices key : ((ax93304_icon K E p x y icon).2 = 0 ↔
      (icon = K.ICON_ARROW_LEFT ∨ icon = K.ICON_ARROW_RIGHT ∨ icon = K.ICON_ARROW_UP ∨
       icon = K.ICON_ARROW_DOWN ∨ icon = K.ICON_CHECKBOX_OFF ∨ icon = K.ICON_CHECKBOX_ON ∨
       icon = K.ICON_CHECKBOX_GRAY ∨
       ((icon = K.ICON_HEART_OPEN ∨ icon = K.ICON_HEART_FILLED) ∧
         p.ccmode ≠ CGmode.vbar ∧ p.ccmode ≠ CGmode.bignum))) ∧
      ((ax93304_icon K E p x y icon).2 ≠ 0 → ax93304_icon K E p x y icon = (p, -1)) from
    ⟨key.1, key.2, hbf⟩
  by_cases h1 : icon = K.ICON_ARROW_LEFT
  · subst h1
    rw [icon_arrow_left]
    simp
  by_cases h2 : icon = K.ICON_ARROW_RIGHT
  · subst h2
    rw [icon_arrow_right K E p x y hK]
    simp
  by_cases h5 : icon = K.ICON_ARROW_UP
  · subst h5
    rw [icon_arrow_up K E p x y hK]
    simp
  by_cases h6 : icon = K.ICON_ARROW_DOWN
  · subst h6
    rw [icon_arrow_down K E p x y hK]
    simp
  by_cases h7 : icon = K.ICON_CHECKBOX_OFF
  · subst h7
    rw [icon_checkbox_off K E p x y hK]
    simp
  by_cases h8 : icon = K.ICON_CHECKBOX_ON
  · subst h8
    rw [icon_checkbox_on K E p x y hK]
    simp
  by_cases h9 : icon = K.ICON_CHECKBOX_GRAY
  · subst h9
    rw [icon_checkbox_gray K E p x y hK]
    simp
  by_cases h3 : icon = K.ICON_HEART_FILLED
  · subst h3
    have e0 : ¬ K.ICON_HEART_FILLED = K.ICON_ARROW_LEFT :=
      distinct_ne K hK 2 5 (by decide) (by decide) (by decide)
    have e1 : ¬ K.ICON_HEART_FILLED = K.ICON_ARROW_RIGHT :=
      distinct_ne K hK 2 6 (by decide) (by decide) (by decide)
    have e2 : ¬ K.ICON_HEART_FILLED = K.ICON_ARROW_UP :=
      distinct_ne K hK 2 3 (by decide) (by decide) (by decide)
    have e3 : ¬ K.ICON_HEART_FILLED = K.ICON_ARROW_DOWN :=
      distinct_ne K hK 2 4 (by decide) (by decide) (by decide)
    have e4 : ¬ K.ICON_HEART_FILLED = K.ICON_CHECKBOX_OFF :=
      distinct_ne K hK 2 7 (by decide) (by decide) (by decide)
    have e5 : ¬ K.ICON_HEART_FILLED = K.ICON_CHECKBOX_ON :=
      distinct_ne K hK 2 8 (by decide) (by decide) (by decide)
    have e6 : ¬ K.ICON_HEART_FILLED = K.ICON_CHECKBOX_GRAY :=
      distinct_ne K hK 2 9 (by decide) (by decide) (by decide)
    rw [icon_heart_filled K E p x y hK]
    by_cases hm : p.ccmode ≠ CGmode.bignum ∧ p.ccmode ≠ CGmode.vbar
    · rw [if_pos hm]
      simp [hm.1, hm.2]
    · rw [if_neg hm]
      have hm' : ¬ (¬ p.ccmode = CGmode.vbar ∧ ¬ p.ccmode = CGmode.bignum) :=
        fun h => hm ⟨h.2, h.1⟩
      simp [e0, e1, e2, e3, e4, e5, e6, hm']
  by_cases h4 : icon = K.ICON_HEART_OPEN
  · subst h4
    have e0 : ¬ K.ICON_HEART_OPEN = K.ICON_ARROW_LEFT :=
      distinct_ne K hK 1 5 (by decide) (by decide) (by decide)
    have e1 : ¬ K.ICON_HEART_OPEN = K.ICON_ARROW_RIGHT :=
      distinct_ne K hK 1 6 (by decide) (by decide) (by decide)
    have e2 : ¬ K.ICON_HEART_OPEN = K.ICON_ARROW_UP :=
      distinct_ne K hK 1 3 (by decide) (by decide) (by decide)
    have e3 : ¬ K.ICON_HEART_OPEN = K.ICON_ARROW_DOWN :=
      distinct_ne K hK 1 4 (by decide) (by decide) (by decide)
    have e4 : ¬ K.ICON_HEART_OPEN = K.ICON_CHECKBOX_OFF :=
      distinct_ne K hK 1 7 (by decide) (by decide) (by decide)
    have e5 : ¬ K.ICON_HEART_OPEN = K.ICON_CHECKBOX_ON :=
      distinct_ne K hK 1 8 (by decide) (by decide) (by decide)
    have e6 : ¬ K.ICON_HEART_OPEN = K.ICON_CHECKBOX_GRAY :=
      distinct_ne K hK 1 9 (by decide) (by decide) (by decide)
    rw [icon_heart_open K E p x y hK]
    by_cases hm : p.ccmode ≠ CGmode.bignum ∧ p.ccmode ≠ CGmode.vbar
    · rw [if_pos hm]
      simp [hm.1, hm.2]
    · rw [if_neg hm]
      have hm' : ¬ (¬ p.ccmode = CGmode.vbar ∧ ¬ p.ccmode = CGmode.bignum) :=
        fun h => hm ⟨h.2, h.1⟩
      simp [e0, e1, e2, e3, e4, e5, e6, hm']
  rw [icon_other K E p x y icon h1 h2 h3 h4 h5 h6 h7 h8 h9]
  simp [h1, h2, h3, h4, h5, h6, h7, h8, h9]

/-- C14 at concrete inputs: on the initial screen the filled-block icon is refused and
the left arrow is handled. -/
theorem icon_result_characterised_witness :
    lcdIcons.Distinct ∧
    ax93304_icon lcdIcons pageZeroEnv initial 1 1 lcdIcons.ICON_BLOCK_FILLED
      = (initial, -1) ∧
    (ax93304_icon lcdIcons pageZeroEnv initial 1 1 lcdIcons.ICON_ARROW_LEFT).2 = 0 :=
  ⟨by decide,
   (icon_result_characterised lcdIcons pageZeroEnv initial 1 1 lcdIcons.ICON_BLOCK_FILLED
      (by decide)).2.2,
   (icon_result_characterised lcdIcons pageZeroEnv initial 1 1 lcdIcons.ICON_ARROW_LEFT
      (by decide)).1.mpr (Or.inl rfl)⟩

/-- C19: on an initialised driver in any mode and for an in-range `(x,y)`, `ax93304_icon`
for arrow-up, arrow-down, checkbox-off, checkbox-on and checkbox-gray calls
`ax93304_set_char` for slot 1, 2, 3, 4, 5 with that icon's bitmap, then `ax93304_chr` with
the glyph code of the same number, and returns 0; the driver it leaves differs from the
one before only in the bytes sent and in the cell `(x,y)`, so the mode is as it was. -/
theorem custom_icons_ignore_mode (K : Icons) (E : Env) (p : PrivateData) (x y : Int)
    (hK : K.Distinct) (hI : Initialised p)
    (hx1 : 1 ≤ x) (hx : x ≤ 16) (hy1 : 1 ≤ y) (hy : y ≤ 2) :
    (ax93304_icon K E p x y K.ICON_ARROW_UP
      = (ax93304_chr (ax93304_set_char E p 1 (some arrow_up)) x y 1, 0) ∧
    ax93304_icon K E p x y K.ICON_ARROW_DOWN
      = (ax93304_chr (ax93304_set_char E p 2 (some arrow_down)) x y 2, 0) ∧
    ax93304_icon K E p x y K.ICON_CHECKBOX_OFF
      = (ax93304_chr (ax93304_set_char E p 3 (some checkbox_off)) x y 3, 0) ∧
    ax93304_icon K E p x y K.ICON_CHECKBOX_ON
      = (ax93304_chr (ax93304_set_char E p 4 (some checkbox_on)) x y 4, 0) ∧
    ax93304_icon K E p x y K.ICON_CHECKBOX_GRAY
      = (ax93304_chr (ax93304_set_char E p 5 (some checkbox_gray)) x y 5, 0)) ∧
    (ax93304_icon K E p x y K.ICON_ARROW_UP
      = ({ p with
            tx := p.tx ++ glyph_sequence E 1 arrow_up,
            framebuf := List.set p.framebuf (Int.toNat ((y - 1) * 16 + (x - 1))) 1 }, 0) ∧
    ax93304_icon K E p x y K.ICON_ARROW_DOWN
      = ({ p with
            tx := p.tx ++ glyph_sequence E 2 arrow_down,
            framebuf := List.set p.framebuf (Int.toNat ((y - 1) * 16 + (x - 1))) 2 }, 0) ∧
    ax93304_icon K E p x y K.ICON_CHECKBOX_OFF
      = ({ p with
            tx := p.tx ++ glyph_sequence E 3 checkbox_off,
            framebuf := List.set p.framebuf (Int.toNat ((y - 1) * 16 + (x - 1))) 3 }, 0) ∧
    ax93304_icon K E p x y K.ICON_CHECKBOX_ON
      = ({ p with
            tx := p.tx ++ glyph_sequence E 4 checkbox_on,
            framebuf := List.set p.framebuf (Int.toNat ((y - 1) * 16 + (x - 1))) 4 }, 0) ∧
    ax93304_icon K E p x y K.ICON_CHECKBOX_GRAY
      = ({ p with
            tx := p.tx ++ glyph_sequence E 5 checkbox_gray,
            framebuf := List.set p.framebuf (Int.toNat ((y - 1) * 16 + (x - 1))) 5 }, 0)) ∧
    (∀ icon ∈ [K.ICON_ARROW_UP, K.ICON_ARROW_DOWN, K.ICON_CHECKBOX_OFF, K.ICON_CHECKBOX_ON,
        K.ICON_CHECKBOX_GRAY],
      (ax93304_icon K E p x y icon).1.ccmode = p.ccmode ∧
      (ax93304_icon K E p x y icon).2 = 0) := by
  have h2 : (ax93304_icon K E p x y K.ICON_ARROW_UP
      = ({ p with
            tx := p.tx ++ glyph_sequence E 1 arrow_up,
            framebuf := List.set p.framebuf (Int.toNat ((y - 1) * 16 + (x - 1))) 1 }, 0) ∧
    ax93304_icon K E p x y K.ICON_ARROW_DOWN
      = ({ p with
            tx := p.tx ++ glyph_sequence E 2 arrow_down,
            framebuf := List.set p.framebuf (Int.toNat ((y - 1) * 16 + (x - 1))) 2 }, 0) ∧
    ax93304_icon K E p x y K.ICON_CHECKBOX_OFF
      = ({ p with
            tx := p.tx ++ glyph_sequence E 3 checkbox_off,
            framebuf := List.set p.framebuf (Int.toNat ((y - 1) * 16 + (x - 1))) 3 }, 0) ∧
    ax93304_icon K E p x y K.ICON_CHECKBOX_ON
      = ({ p with
            tx := p.tx ++ glyph_sequence E 4 checkbox_on,
            framebuf := List.set p.framebuf (Int.toNat ((y - 1) * 16 + (x - 1))) 4 }, 0) ∧
    ax93304_icon K E p x y K.ICON_CHECKBOX_GRAY
      = ({ p with
            tx := p.tx ++ glyph_sequence E 5 checkbox_gray,
            framebuf := List.set p.framebuf (Int.toNat ((y - 1) * 16 + (x - 1))) 5 }, 0)) := by
    refine ⟨?_, ?_, ?_, ?_, ?_⟩
    · rw [icon_arrow_up K E p x y hK,
        set_then_chr_eq E p 1 arrow_up x y 1 hI (by decide) (by decide) hx1 hx hy1 hy (by decide)]
    · rw [icon_arrow_down K E p x y hK,
        set_then_chr_eq E p 2 arrow_down x y 2 hI (by decide) (by decide) hx1 hx hy1 hy (by decide)]
    · rw [icon_checkbox_off K E p x y hK,
        set_then_chr_eq E p 3 checkbox_off x y 3 hI (by decide) (by decide) hx1 hx hy1 hy (by decide)]
    · rw [icon_checkbox_on K E p x y hK,
        set_then_chr_eq E p 4 checkbox_on x y 4 hI (by decide) (by decide) hx1 hx hy1 hy (by decide)]
    · rw [icon_checkbox_gray K E p x y hK,
        set_then_chr_eq E p 5 checkbox_gray x y 5 hI (by decide) (by decide) hx1 hx hy1 hy (by decide)]
  refine ⟨⟨?_, ?_, ?_, ?_, ?_⟩, h2, ?_⟩
  · exact icon_arrow_up K E p x y hK
  · exact icon_arrow_down K E p x y hK
  · exact icon_checkbox_off K E p x y hK
  · exact icon_checkbox_on K E p x y hK
  · exact icon_checkbox_gray K E p x y hK
  · intro icon hmem
    simp only [List.mem_cons, List.mem_singleton, List.not_mem_nil, or_false] at hmem
    obtain ⟨g1, g2, g3, g4, g5⟩ := h2
    rcases hmem with h | h | h | h | h <;> subst h
    · rw [g1]; exact ⟨rfl, rfl⟩
    · rw [g2]; exact ⟨rfl, rfl⟩
    · rw [g3]; exact ⟨rfl, rfl⟩
    · rw [g4]; exact ⟨rfl, rfl⟩
    · rw [g5]; exact ⟨rfl, rfl⟩

/-- C19 at a concrete input: arrow-up at (2,1) while the driver is in `vbar` mode; slot 1
is redefined, the cell holds glyph code 1, and the mode is still `vbar`. -/
theorem custom_icons_ignore_mode_witness :
    lcdIcons.Distinct ∧
    Initialised { initial with ccmode := CGmode.vbar } ∧
    ax93304_icon lcdIcons pageZeroEnv { initial with ccmode := CGmode.vbar } 2 1
        lcdIcons.ICON_ARROW_UP
      = ({ initial with
            ccmode := CGmode.vbar,
            tx := initial.tx ++ glyph_sequence pageZeroEnv 1 arrow_up,
            framebuf := List.set initial.framebuf 1 1 }, 0) :=
  ⟨by decide, by decide,
   (custom_icons_ignore_mode lcdIcons pageZeroEnv { initial with ccmode := CGmode.vbar }
      2 1 (by decide) (by decide) (by decide) (by decide) (by decide) (by decide)).2.1.1⟩

/-! ## Key polling and the string end-to-end scenario -/

/-- C15: every `ax93304_get_key` call sends the single byte `FD` and changes nothing else;
when `select` reports data and `read` returns a byte, the result is "Up" for `M` (0x4D),
"Down" for `G` (0x47), "Escape" for `K` (0x4B), "Enter" for `N` (0x4E) and no key for any
other byte; when nothing is ready or `read` fails, the result is no key. -/
theorem get_key_polls_and_decodes (p : PrivateData) (sel retval : Int) (ch : Nat) :
    (ax93304_get_key p sel retval ch).1 = { p with tx := p.tx ++ [0xFD] } ∧
    sent p (ax93304_get_key p sel retval ch).1 = [0xFD] ∧
    (sel ≠ 0 → retval > 0 →
      (ch = 0x4D → (ax93304_get_key p sel retval ch).2 = some "Up") ∧
      (ch = 0x47 → (ax93304_get_key p sel retval ch).2 = some "Down") ∧
      (ch = 0x4B → (ax93304_get_key p sel retval ch).2 = some "Escape") ∧
      (ch = 0x4E → (ax93304_get_key p sel retval ch).2 = some "Enter") ∧
      (ch ≠ 0x4D → ch ≠ 0x47 → ch ≠ 0x4B → ch ≠ 0x4E →
        (ax93304_get_key p sel retval ch).2 = none)) ∧
    (sel = 0 ∨ retval ≤ 0 → (ax93304_get_key p sel retval ch).2 = none) := by
  have h1 : (ax93304_get_key p sel retval ch).1 = { p with tx := p.tx ++ [0xFD] } := by
    unfold ax93304_get_key
    simp only [sys_write]
    split_ifs <;> rfl
  refine ⟨h1, by rw [h1, sent_append], ?_, ?_⟩
  · intro hsel hret
    refine ⟨?_, ?_, ?_, ?_, ?_⟩
    · intro h; subst h; simp [ax93304_get_key, hsel, hret]
    · intro h; subst h; simp [ax93304_get_key, hsel, hret]
    · intro h; subst h; simp [ax93304_get_key, hsel, hret]
    · intro h; subst h; simp [ax93304_get_key, hsel, hret]
    · intro a b c d; simp [ax93304_get_key, hsel, hret, a, b, c, d]
  · intro h
    unfold ax93304_get_key
    rcases h with h | h
    · simp [h]
    · have : ¬ retval > 0 := by omega
      simp only [this, if_false]
      split_ifs <;> rfl

/-- The loop of `ax93304_string` on a frame buffer `pre ++ mid ++ post`, started at the
cell after `pre` with a string as long as `mid` that fits the buffer: `mid` is replaced by
the string, the bytes `0x80 .. 0x97` turned into spaces; nothing else changes. -/
theorem string_loop_splice (x y : Int) (s : List Nat) :
    ∀ (i : Int) (p : PrivateData) (pre mid post : List Nat),
      (∀ ch ∈ s, 0 < ch ∧ ch < 256) →
      p.framebuf = pre ++ mid ++ post → mid.length = s.length →
      y * p.width + x + i = pre.length →
      ((pre.length : Int) + s.length ≤ p.width * p.height) →
      ax93304_string_loop x y s i p
        = { p with
            framebuf := pre ++ s.map (fun c => if c > 0x7F ∧ c < 0x98 then 0x20 else c)
              ++ post } := by
  induction s with
  | nil =>
    intro i p pre mid post _ hfb hmid _ _
    have : mid = [] := List.length_eq_zero.mp hmid
    subst this
    cases p
    simp_all [ax93304_string_loop]
  | cons ch rest ih =>
    intro i p pre mid post hs hfb hmid hidx hfit
    cases mid with
    | nil => simp at hmid
    | cons m mid' =>
      have hch := hs ch (List.mem_cons_self _ _)
      have hmod : ch % 256 = ch := Nat.mod_eq_of_lt hch.2
      have hnz : ¬ (ch % 256 = 0) := by omega
      simp only [List.length_cons, Nat.cast_add, Nat.cast_one] at hfit
      have hle : ¬ (y * p.width + x + i > p.width * p.height) := by omega
      have hlen : p.framebuf.length = pre.length + (mid'.length + 1) + post.length := by
        rw [hfb]; simp; omega
      have hnz' : ¬ (ch = 0) := by omega
      unfold ax93304_string_loop
      simp only [hmod, hnz', if_false, hle]
      rw [poke_in p _ _ ⟨by omega, by rw [hlen]; push_cast; omega⟩]
      have hset : p.framebuf.set (y * p.width + x + i).toNat
            (if ch > 0x7F ∧ ch < 0x98 then 0x20 else ch)
          = (pre ++ [if ch > 0x7F ∧ ch < 0x98 then 0x20 else ch]) ++ mid' ++ post := by
        rw [hidx, hfb]
        simp
      rw [ih (i + 1) _ (pre ++ [if ch > 0x7F ∧ ch < 0x98 then 0x20 else ch]) mid' post
        (fun b hb => hs b (List.mem_cons_of_mem _ hb)) hset
        (by simpa using hmid)
        (by simp only [List.length_append, List.length_singleton]; push_cast; omega)
        (by simp only [List.length_append, List.length_singleton]; push_cast; omega)]
      simp

/-- C16: on an initialised driver, for an in-range `(x,y)` and a string `s` without NUL and
without bytes in `0x80 .. 0x97` that fits the rest of its row (`length s <= 16 - x + 1`),
`ax93304_clear`, `ax93304_string(x, y, s)` and `ax93304_flush` send 38 bytes whose 32
frame bytes are: spaces up to the cell `(x,y)`, then `s`, then spaces to the end. -/
theorem clear_string_flush_frame (p : PrivateData) (x y : Int) (s : List Nat)
    (hI : Initialised p) (hx1 : 1 ≤ x) (hx : x ≤ 16) (hy1 : 1 ≤ y) (hy : y ≤ 2)
    (hs : ∀ ch ∈ s, 0 < ch ∧ ch < 256 ∧ ¬ (0x80 ≤ ch ∧ ch ≤ 0x97))
    (hfit : (s.length : Int) ≤ 16 - x + 1) :
    frame_of_flush (sent (ax93304_string (ax93304_clear p) x y s)
        (ax93304_flush (ax93304_string (ax93304_clear p) x y s)))
      = List.replicate ((y - 1) * 16 + (x - 1)).toNat 0x20 ++ s
          ++ List.replicate (32 - ((y - 1) * 16 + (x - 1)).toNat - s.length) 0x20 ∧
    (sent (ax93304_string (ax93304_clear p) x y s)
        (ax93304_flush (ax93304_string (ax93304_clear p) x y s))).length = 38 := by
  obtain ⟨hw, hh, hcw, hch, hlen⟩ := hI
  have hb : (((y - 1) * 16 + (x - 1)).toNat : Int) = (y - 1) * 16 + (x - 1) :=
    Int.toNat_of_nonneg (by omega)
  have hbn : ((y - 1) * 16 + (x - 1)).toNat + s.length ≤ 32 := by omega
  have hsplit : List.replicate 32 0x20
      = List.replicate ((y - 1) * 16 + (x - 1)).toNat 0x20 ++ List.replicate s.length 0x20
          ++ List.replicate (32 - ((y - 1) * 16 + (x - 1)).toNat - s.length) 0x20 := by
    rw [List.append_replicate_replicate, List.append_replicate_replicate]
    congr 1
    omega
  have hmap : s.map (fun c => if c > 0x7F ∧ c < 0x98 then 0x20 else c) = s := by
    have : ∀ c ∈ s, (fun c => if c > 0x7F ∧ c < 0x98 then 0x20 else c) c = id c := by
      intro c hc
      have h3 := (hs c hc).2.2
      have : ¬ (c > 0x7F ∧ c < 0x98) := by omega
      simp only [this, if_false, id]
    rw [List.map_congr_left this, List.map_id]
  have hq : ax93304_string (ax93304_clear p) x y s
      = { p with
          framebuf := List.replicate ((y - 1) * 16 + (x - 1)).toNat 0x20 ++ s
            ++ List.replicate (32 - ((y - 1) * 16 + (x - 1)).toNat - s.length) 0x20,
          ccmode := CGmode.standard } := by
    rw [clear_eq p ⟨hw, hh, hcw, hch, hlen⟩]
    unfold ax93304_string
    rw [string_loop_splice (x - 1) (y - 1) s 0 _
      (List.replicate ((y - 1) * 16 + (x - 1)).toNat 0x20) (List.replicate s.length 0x20)
      (List.replicate (32 - ((y - 1) * 16 + (x - 1)).toNat - s.length) 0x20)
      (fun c hc => ⟨(hs c hc).1, (hs c hc).2.1⟩) hsplit (by simp)
      (by simp only [List.length_replicate, hw]; omega)
      (by simp only [List.length_replicate, hw, hh]; omega), hmap]
  have hl : (List.replicate ((y - 1) * 16 + (x - 1)).toNat 0x20 ++ s
      ++ List.replicate (32 - ((y - 1) * 16 + (x - 1)).toNat - s.length) 0x20).length
      = 32 := by
    simp only [List.length_append, List.length_replicate]
    omega
  rw [hq, flush_eq, sent_append]
  constructor
  · exact frame_of_flush_eq _ hl _ _ _ _ _ _
  · simp only [List.length_append, List.length_take, List.length_drop, hl]
    rfl

/-- C16 at the concrete input of the spec: "HELLO" at (1,1) gives a first row of
`H E L L O` and 11 spaces, and a second row of 16 spaces. -/
theorem clear_string_flush_frame_witness :
    Initialised initial ∧
    frame_of_flush (sent (ax93304_string (ax93304_clear initial) 1 1
          [0x48, 0x45, 0x4C, 0x4C, 0x4F])
        (ax93304_flush (ax93304_string (ax93304_clear initial) 1 1
          [0x48, 0x45, 0x4C, 0x4C, 0x4F])))
      = [0x48, 0x45, 0x4C, 0x4C, 0x4F] ++ List.replicate 11 0x20 ++ List.replicate 16 0x20 :=
  ⟨by decide,
   (clear_string_flush_frame initial 1 1 [0x48, 0x45, 0x4C, 0x4C, 0x4F] (by decide)
      (by decide) (by decide) (by decide) (by decide) (by decide) (by decide)).1⟩

/-! ## Initialisation -/

/-- C17: once `calloc` and `store_private_ptr` have succeeded: when `open` fails (returns
-1), `ax93304_init` returns -1, the private data holds a null `framebuf`, and no byte has
been sent; when `open` and `malloc` succeed, it returns 0 with a frame buffer of 32 spaces,
mode `standard`, and exactly `FE 01 FE 02` sent. -/
theorem init_open_failure_and_success (W : InitWorld)
    (hc : W.calloc_ok = true) (hs : W.store_result = 0) :
    (W.open_result = -1 →
      (ax93304_init W).ret = -1 ∧ (ax93304_init W).ret < 0 ∧ (ax93304_init W).tx = [] ∧
      (∃ d, (ax93304_init W).private_data = some d ∧ d.framebuf = none) ∧
      (ax93304_init W).view = none) ∧
    (W.open_result ≠ -1 → W.malloc_ok = true →
      (ax93304_init W).ret = 0 ∧ (ax93304_init W).tx = [0xFE, 0x01, 0xFE, 0x02] ∧
      (∃ d, (ax93304_init W).private_data = some d ∧
        d.framebuf = some (List.replicate 32 0x20) ∧ d.ccmode = CGmode.standard ∧
        d.width = 16 ∧ d.height = 2) ∧
      (ax93304_init W).view = some initial) := by
  constructor
  · intro ho
    simp [ax93304_init, hc, hs, ho, Loaded.view]
  · intro ho hm
    simp [ax93304_init, hc, hs, ho, hm, Loaded.view, initial]

/-- C17 at concrete inputs: a world where `open` fails, and one where everything succeeds. -/
theorem init_open_failure_and_success_witness :
    (ax93304_init { goodWorld with open_result := -1 }).ret = -1 ∧
    (ax93304_init { goodWorld with open_result := -1 }).tx = [] ∧
    (ax93304_init goodWorld).ret = 0 ∧
    (ax93304_init goodWorld).view = some initial :=
  ⟨((init_open_failure_and_success { goodWorld with open_result := -1 } rfl rfl).1 rfl).1,
   ((init_open_failure_and_success { goodWorld with open_result := -1 } rfl rfl).1 rfl).2.2.1,
   ((init_open_failure_and_success goodWorld rfl rfl).2 (by decide) rfl).1,
   ((init_open_failure_and_success goodWorld rfl rfl).2 (by decide) rfl).2.2.2⟩

/-! ## The render-mode state machine -/

theorem foldl_ccmode (g : PrivateData → Nat → PrivateData)
    (hg : ∀ q r, (g q r).ccmode = q.ccmode) (l : List Nat) (q : PrivateData) :
    (l.foldl g q).ccmode = q.ccmode := by
  induction l generalizing q with
  | nil => rfl
  | cons a t ih => rw [List.foldl_cons, ih, hg]

theorem set_char_ccmode (E : Env) (p : PrivateData) (n : Int) (dat : Option (List Nat)) :
    (ax93304_set_char E p n dat).ccmode = p.ccmode := by
  unfold ax93304_set_char
  split
  · rfl
  · cases dat with
    | none => rfl
    | some d =>
      dsimp only
      show (List.foldl (fun q (row : Nat) => sys_write q _) _ _).ccmode = p.ccmode
      rw [foldl_ccmode
        (fun q (row : Nat) =>
          sys_write q [d.getD row 0 % 256 &&& (1 <<< p.cellwidth.toNat - 1) % 256])
        (fun _ _ => rfl)]
      unfold sys_write_at
      cases E.peek (0x40 + n * 8) <;> rfl

theorem set_bar_chars_ccmode (E : Env) (table : List (List Nat)) (count : Nat)
    (p : PrivateData) :
    (set_bar_chars E table count p).ccmode = p.ccmode := by
  unfold set_bar_chars
  generalize List.range count = l
  induction l generalizing p with
  | nil => rfl
  | cons a t ih => rw [List.foldl_cons, ih, set_char_ccmode]

theorem chr_ccmode (p : PrivateData) (x y : Int) (c : Nat) :
    (ax93304_chr p x y c).ccmode = p.ccmode := by
  unfold ax93304_chr
  exact (poke_fields _ _ _).2.2.2.2.1

theorem icon_custom_ccmode (K : Icons) (E : Env) (p : PrivateData) (x y icon : Int) :
    (ax93304_icon_custom K E p x y icon).1.ccmode = p.ccmode := by
  unfold ax93304_icon_custom
  by_cases k0 : icon = K.ICON_ARROW_UP
  · rw [if_pos k0]
    simp only [chr_ccmode, set_char_ccmode]
  rw [if_neg k0]
  by_cases k1 : icon = K.ICON_ARROW_DOWN
  · rw [if_pos k1]
    simp only [chr_ccmode, set_char_ccmode]
  rw [if_neg k1]
  by_cases k2 : icon = K.ICON_CHECKBOX_OFF
  · rw [if_pos k2]
    simp only [chr_ccmode, set_char_ccmode]
  rw [if_neg k2]
  by_cases k3 : icon = K.ICON_CHECKBOX_ON
  · rw [if_pos k3]
    simp only [chr_ccmode, set_char_ccmode]
  rw [if_neg k3]
  by_cases k4 : icon = K.ICON_CHECKBOX_GRAY
  · rw [if_pos k4]
    simp only [chr_ccmode, set_char_ccmode]
  rw [if_neg k4]

theorem icon_ccmode (K : Icons) (E : Env) (p : PrivateData) (x y icon : Int) :
    (ax93304_icon K E p x y icon).1.ccmode = p.ccmode := by
  unfold ax93304_icon
  by_cases h1 : icon = K.ICON_ARROW_LEFT
  · rw [if_pos h1]
    exact chr_ccmode p x y _
  rw [if_neg h1]
  by_cases h2 : icon = K.ICON_ARROW_RIGHT
  · rw [if_pos h2]
    exact chr_ccmode p x y _
  rw [if_neg h2]
  by_cases h3 : icon = K.ICON_HEART_FILLED ∨ icon = K.ICON_HEART_OPEN
  · rw [if_pos h3]
    by_cases h4 : p.ccmode ≠ CGmode.bignum ∧ p.ccmode ≠ CGmode.vbar
    · rw [if_pos h4]
      by_cases h5 : icon = K.ICON_HEART_FILLED
      · rw [if_pos h5]
        simp only [chr_ccmode, set_char_ccmode]
      rw [if_neg h5]
      by_cases h6 : icon = K.ICON_HEART_OPEN
      · rw [if_pos h6]
        simp only [chr_ccmode, set_char_ccmode]
      rw [if_neg h6]
      exact icon_custom_ccmode K E p x y icon
    · rw [if_neg h4]
  · rw [if_neg h3]
    exact icon_custom_ccmode K E p x y icon

theorem vbar_ccmode (E : Env) (p : PrivateData) (x y len promille options : Int)
    (hv : ∀ (q : PrivateData) (a b c d e f g : Int),
      (E.lib_vbar_static q a b c d e f g).ccmode = q.ccmode) :
    (ax93304_vbar E p x y len promille options).ccmode
      = if p.ccmode = CGmode.standard then CGmode.vbar else p.ccmode := by
  unfold ax93304_vbar
  by_cases h1 : p.ccmode = CGmode.vbar
  · simp [h1, hv]
  · by_cases h2 : p.ccmode = CGmode.standard
    · simp [h2, hv, set_bar_chars_ccmode]
    · simp [h1, h2]

theorem hbar_ccmode (E : Env) (p : PrivateData) (x y len promille options : Int)
    (hh : ∀ (q : PrivateData) (a b c d e f g : Int),
      (E.lib_hbar_static q a b c d e f g).ccmode = q.ccmode) :
    (ax93304_hbar E p x y len promille options).ccmode
      = if p.ccmode = CGmode.standard then CGmode.hbar else p.ccmode := by
  unfold ax93304_hbar
  by_cases h1 : p.ccmode = CGmode.hbar
  · simp [h1, hh]
  · by_cases h2 : p.ccmode = CGmode.standard
    · simp [h2, hh, set_bar_chars_ccmode]
    · simp [h1, h2]

/-- The mode after one operation: `standard` after `clear`; after a bar call, the bar's
mode if the mode was `standard` and the old mode otherwise; the old mode after anything
else. -/
theorem perform_ccmode (K : Icons) (E : Env) (p : PrivateData) (op : Op)
    (hv : ∀ (q : PrivateData) (a b c d e f g : Int),
      (E.lib_vbar_static q a b c d e f g).ccmode = q.ccmode)
    (hh : ∀ (q : PrivateData) (a b c d e f g : Int),
      (E.lib_hbar_static q a b c d e f g).ccmode = q.ccmode) :
    (perform K E p op).ccmode
      = match op with
        | Op.clear => CGmode.standard
        | Op.vbar _ _ _ _ _ => if p.ccmode = CGmode.standard then CGmode.vbar else p.ccmode
        | Op.hbar _ _ _ _ _ => if p.ccmode = CGmode.standard then CGmode.hbar else p.ccmode
        | _ => p.ccmode := by
  cases op with
  | chr x y c => exact chr_ccmode p x y c
  | string x y s => exact (string_loop_fields _ _ _ _ _).2.2.2.2.1
  | flush => simp only [perform, flush_eq]
  | backlight v =>
    simp only [perform, ax93304_backlight, sys_write]
    split_ifs <;> rfl
  | set_char n dat => exact set_char_ccmode E p n dat
  | vbar x y len promille options => exact vbar_ccmode E p x y len promille options hv
  | hbar x y len promille options => exact hbar_ccmode E p x y len promille options hh
  | icon x y icon => exact icon_ccmode K E p x y icon
  | get_key sel retval ch =>
    simp only [perform, ax93304_get_key, sys_write]
    split_ifs <;> rfl
  | clear => simp [perform, ax93304_clear]

theorem perform_keeps_off_bignum (K : Icons) (E : Env) (p : PrivateData) (op : Op)
    (hv : ∀ (q : PrivateData) (a b c d e f g : Int),
      (E.lib_vbar_static q a b c d e f g).ccmode = q.ccmode)
    (hh : ∀ (q : PrivateData) (a b c d e f g : Int),
      (E.lib_hbar_static q a b c d e f g).ccmode = q.ccmode)
    (hp : p.ccmode ≠ CGmode.bignum) :
    (perform K E p op).ccmode ≠ CGmode.bignum := by
  rw [perform_ccmode K E p op hv hh]
  cases op <;> simp only [] <;> first | exact hp | (split_ifs <;> first | exact hp | decide) | decide

theorem perform_all_keeps_off_bignum (K : Icons) (E : Env) (ops : List Op)
    (hv : ∀ (q : PrivateData) (a b c d e f g : Int),
      (E.lib_vbar_static q a b c d e f g).ccmode = q.ccmode)
    (hh : ∀ (q : PrivateData) (a b c d e f g : Int),
      (E.lib_hbar_static q a b c d e f g).ccmode = q.ccmode) :
    ∀ p : PrivateData, p.ccmode ≠ CGmode.bignum →
      (perform_all K E p ops).ccmode ≠ CGmode.bignum := by
  induction ops with
  | nil => intro p hp; exact hp
  | cons op rest ih =>
    intro p hp
    unfold perform_all
    rw [List.foldl_cons]
    exact ih (perform K E p op) (perform_keeps_off_bignum K E p op hv hh hp)

/-- C18: with shared bar primitives that leave the mode alone, every operation other than
`clear` (chr, string, flush, backlight, set_char, vbar, hbar, icon, get_key, any arguments)
keeps a mode different from `standard` as it is; from `standard` an operation leaves
`standard`, or it is a `vbar` call and leaves `vbar`, or an `hbar` call and leaves `hbar`;
`clear` always leaves `standard`; so no sequence of operations started outside `bignum`,
in particular from the initial state, ever reaches `bignum`. -/
theorem mode_left_only_by_clear (K : Icons) (E : Env) (p : PrivateData) (op : Op)
    (hv : ∀ (q : PrivateData) (a b c d e f g : Int),
      (E.lib_vbar_static q a b c d e f g).ccmode = q.ccmode)
    (hh : ∀ (q : PrivateData) (a b c d e f g : Int),
      (E.lib_hbar_static q a b c d e f g).ccmode = q.ccmode) :
    (op ≠ Op.clear → p.ccmode ≠ CGmode.standard →
      (perform K E p op).ccmode = p.ccmode) ∧
    (p.ccmode = CGmode.standard →
      (perform K E p op).ccmode = CGmode.standard ∨
      ((∃ x y len promille options, op = Op.vbar x y len promille options) ∧
        (perform K E p op).ccmode = CGmode.vbar) ∨
      ((∃ x y len promille options, op = Op.hbar x y len promille options) ∧
        (perform K E p op).ccmode = CGmode.hbar)) ∧
    (perform K E p Op.clear).ccmode = CGmode.standard ∧
    (∀ ops : List Op, p.ccmode ≠ CGmode.bignum →
      (perform_all K E p ops).ccmode ≠ CGmode.bignum) ∧
    (∀ ops : List Op, (perform_all K E initial ops).ccmode ≠ CGmode.bignum) := by
  refine ⟨?_, ?_, perform_ccmode K E p Op.clear hv hh,
    fun ops hp => perform_all_keeps_off_bignum K E ops hv hh p hp,
    fun ops => perform_all_keeps_off_bignum K E ops hv hh initial (by decide)⟩
  · intro hop hns
    rw [perform_ccmode K E p op hv hh]
    cases op with
    | clear => exact absurd rfl hop
    | vbar x y len promille options => simp only [hns, if_false]
    | hbar x y len promille options => simp only [hns, if_false]
    | chr x y c => rfl
    | string x y s => rfl
    | flush => rfl
    | backlight v => rfl
    | set_char n dat => rfl
    | icon x y icon => rfl
    | get_key sel retval ch => rfl
  · intro hst
    rw [perform_ccmode K E p op hv hh]
    cases op with
    | clear => exact Or.inl rfl
    | vbar x y len promille options =>
      exact Or.inr (Or.inl ⟨⟨x, y, len, promille, options, rfl⟩, by simp only [hst, if_true]⟩)
    | hbar x y len promille options =>
      exact Or.inr (Or.inr ⟨⟨x, y, len, promille, options, rfl⟩, by simp only [hst, if_true]⟩)
    | chr x y c => exact Or.inl hst
    | string x y s => exact Or.inl hst
    | flush => exact Or.inl hst
    | backlight v => exact Or.inl hst
    | set_char n dat => exact Or.inl hst
    | icon x y icon => exact Or.inl hst
    | get_key sel retval ch => exact Or.inl hst

/-- C18 at concrete inputs: in `vbar` mode a horizontal-bar call and an arrow-up icon leave
`vbar`; a run of bar calls, icons and a clear from the initial state is not in `bignum`. -/
theorem mode_left_only_by_clear_witness :
    (perform lcdIcons pageZeroEnv { initial with ccmode := CGmode.vbar }
        (Op.hbar 1 1 16 500 0)).ccmode = CGmode.vbar ∧
    (perform lcdIcons pageZeroEnv { initial with ccmode := CGmode.vbar }
        (Op.icon 2 1 lcdIcons.ICON_ARROW_UP)).ccmode = CGmode.vbar ∧
    (perform_all lcdIcons pageZeroEnv initial
        [Op.vbar 1 2 2 500 0, Op.hbar 1 1 16 500 0, Op.icon 3 1 lcdIcons.ICON_HEART_OPEN,
         Op.clear, Op.hbar 1 1 16 250 0]).ccmode ≠ CGmode.bignum :=
  ⟨(mode_left_only_by_clear lcdIcons pageZeroEnv { initial with ccmode := CGmode.vbar }
      (Op.hbar 1 1 16 500 0) pageZeroEnv_keeps_mode.1 pageZeroEnv_keeps_mode.2).1
      (fun h => Op.noConfusion h) (by decide),
   (mode_left_only_by_clear lcdIcons pageZeroEnv { initial with ccmode := CGmode.vbar }
      (Op.icon 2 1 lcdIcons.ICON_ARROW_UP) pageZeroEnv_keeps_mode.1
      pageZeroEnv_keeps_mode.2).1 (fun h => Op.noConfusion h) (by decide),
   (mode_left_only_by_clear lcdIcons pageZeroEnv initial Op.clear pageZeroEnv_keeps_mode.1
      pageZeroEnv_keeps_mode.2).2.2.2.2 _⟩

end AX93304
